import Mathlib

/-!
# Keycloak operator: reconciliation steps

A shallow embedding of three source files of the operator:

* `controllers/keycloakclient/chain/put_client_admin_fine_grained_perms.go`
* `pkg/controller/keycloakclient/chain/service_account.go`
* `controllers/keycloakrealmcomponent/keycloakrealmcomponent_controller.go`

The Go code talks to external collaborators (the Keycloak API adapter, the
Kubernetes client, the controller helper).  Each collaborator is a record of
response functions; every response function receives the list of calls issued
so far (oldest first), so a collaborator may answer the same request
differently at different moments.  The embedded functions thread that list
explicitly: they take the calls issued so far and return the extended list
together with the Go return value.  Logging is not modelled.
-/

set_option autoImplicit false
set_option linter.dupNamespace false

/-! ## Go errors -/

/-- A Go `error` value.  `New msg` is `errors.New(msg)` or `fmt.Errorf` without
a wrapping verb; `Wrap pre inner` is `fmt.Errorf(pre + "%w", inner)`, and
`errors.Wrap(inner, m)` is `Wrap (m ++ ": ") inner`. -/
inductive GoError where
  | New (msg : String)
  | Wrap (pre : String) (inner : GoError)
  deriving DecidableEq, Repr

/-- The text returned by `err.Error()`. -/
def GoError.Error : GoError → String
  | GoError.New msg => msg
  | GoError.Wrap pre inner => pre ++ inner.Error

/-- The `errors.Wrap(err, message)` helper of `github.com/pkg/errors`. -/
def errorsWrap (err : GoError) (message : String) : GoError :=
  GoError.Wrap (message ++ ": ") err

/-- The outcome of a Go function returning `error`: `ok` is a `nil` error,
`err e` a non-nil one, `nilDeref` a run-time panic on a nil pointer. -/
inductive Outcome where
  | ok
  | err (e : GoError)
  | nilDeref
  deriving DecidableEq, Repr

/-! ## Fine-grained permissions step: data -/

/-- One declared scope permission, `keycloakApi.ScopePermissions`. -/
structure ScopePermissions where
  Name : String
  Policies : List String
  deriving DecidableEq, Repr

/-- The declared `Permission` block of a client spec. -/
structure ClientPermission where
  ScopePermissions : List ScopePermissions
  deriving DecidableEq, Repr

/-- The fields of `keycloakApi.KeycloakClientSpec` read by the permissions step. -/
structure KeycloakClientSpec where
  ClientId : String
  AdminFineGrainedPermissionsEnabled : Bool
  Permission : Option ClientPermission
  deriving DecidableEq, Repr

/-- The resource `keycloakApi.KeycloakClient`. -/
structure KeycloakClient where
  Spec : KeycloakClientSpec
  deriving DecidableEq, Repr

/-- The remote `adapter.ManagementPermissionRepresentation`; pointer fields are options. -/
structure ManagementPermissionRepresentation where
  Enabled : Option Bool
  Resource : Option String
  ScopePermissions : Option (List (String × String))
  deriving DecidableEq, Repr

/-- The remote `gocloak.PermissionRepresentation`; pointer fields are options. -/
structure PermissionRepresentation where
  ID : Option String
  Name : Option String
  Description : Option String
  Logic : Option String
  Policies : Option (List String)
  Resources : Option (List String)
  Scopes : Option (List String)
  deriving DecidableEq, Repr

/-- A call issued to the Keycloak API client by the permissions step. -/
inductive PermCall where
  | GetClientID (clientID realm : String)
  | UpdateClientManagementPermissions (realm clientID : String)
      (permission : ManagementPermissionRepresentation)
  | GetPermissions (realm clientID : String)
  | GetClientManagementPermissions (realm clientID : String)
  | UpdatePermission (realm clientID : String) (permission : PermissionRepresentation)
  deriving DecidableEq, Repr

/-- The operations of `keycloak.Client` used by the permissions step.  The first
argument of each is the list of calls issued before this one. -/
structure KeycloakApiClient where
  GetClientID : List PermCall → String → String → Except GoError String
  UpdateClientManagementPermissions :
    List PermCall → String → String → ManagementPermissionRepresentation → Option GoError
  GetPermissions :
    List PermCall → String → String → Except GoError (List (String × PermissionRepresentation))
  GetClientManagementPermissions :
    List PermCall → String → String → Except GoError ManagementPermissionRepresentation
  UpdatePermission :
    List PermCall → String → String → PermissionRepresentation → Option GoError

/-- The generated permission name, `fmt.Sprintf("%s.permission.client.%s", name, clientID)`. -/
def permissionName (name clientID : String) : String :=
  name ++ ".permission.client." ++ clientID

/-- The body of the `for` loop of `putKeycloakClientAdminPermissionPolicies`,
run over the declared entries in order (the loop index only reads the slice). -/
def policiesLoop (api : KeycloakApiClient) (realmName realmManagementClientID clientID : String)
    (existingScopePermissions : List (String × String))
    (realmManagementPermissions : List (String × PermissionRepresentation)) :
    List ScopePermissions → List PermCall → List PermCall × Outcome
  | [], tr => (tr, Outcome.ok)
  | sp :: rest, tr =>
    let name := sp.Name
    match existingScopePermissions.lookup name with
    | none => (tr, Outcome.err (GoError.New ("scope " ++ name ++ " not found in permissions")))
    | some _ =>
      match realmManagementPermissions.lookup (permissionName name clientID) with
      | some permission =>
        let permission := { permission with Policies := some sp.Policies }
        let tr1 := tr ++ [PermCall.UpdatePermission realmName realmManagementClientID permission]
        match api.UpdatePermission tr realmName realmManagementClientID permission with
        | some err =>
          (tr1, Outcome.err (GoError.Wrap
            ("failed to update permission " ++ permissionName name clientID ++ ": ") err))
        | none =>
          policiesLoop api realmName realmManagementClientID clientID
            existingScopePermissions realmManagementPermissions rest tr1
      | none =>
        policiesLoop api realmName realmManagementClientID clientID
          existingScopePermissions realmManagementPermissions rest tr

/-- The method `putKeycloakClientAdminPermissionPolicies`. -/
def putKeycloakClientAdminPermissionPolicies (api : KeycloakApiClient)
    (keycloakClient : KeycloakClient) (realmName clientID : String) (tr : List PermCall) :
    List PermCall × Outcome :=
  let tr1 := tr ++ [PermCall.GetClientID "realm-management" realmName]
  match api.GetClientID tr "realm-management" realmName with
  | Except.error err =>
    (tr1, Outcome.err (GoError.Wrap "failed to get realm-management client id: " err))
  | Except.ok realmManagementClientID =>
    let tr2 := tr1 ++ [PermCall.GetPermissions realmName realmManagementClientID]
    match api.GetPermissions tr1 realmName realmManagementClientID with
    | Except.error err =>
      (tr2, Outcome.err (GoError.Wrap "failed to get permissions for realm-management client: " err))
    | Except.ok realmManagementPermissions =>
      let tr3 := tr2 ++ [PermCall.GetClientManagementPermissions realmName clientID]
      match api.GetClientManagementPermissions tr2 realmName clientID with
      | Except.error err =>
        (tr3, Outcome.err (GoError.Wrap "failed to get client permissions: " err))
      | Except.ok existingClientPermissions =>
        match existingClientPermissions.ScopePermissions with
        | none => (tr3, Outcome.nilDeref)
        | some existingScopePermissions =>
          match keycloakClient.Spec.Permission with
          | none => (tr3, Outcome.nilDeref)
          | some permission =>
            policiesLoop api realmName realmManagementClientID clientID
              existingScopePermissions realmManagementPermissions
              permission.ScopePermissions tr3

/-- The method `putKeycloakClientAdminFineGrainedPermissions`. -/
def putKeycloakClientAdminFineGrainedPermissions (api : KeycloakApiClient)
    (keycloakClient : KeycloakClient) (realmName clientID : String) (tr : List PermCall) :
    List PermCall × Outcome :=
  let managementPermissions : ManagementPermissionRepresentation :=
    { Enabled := some keycloakClient.Spec.AdminFineGrainedPermissionsEnabled,
      Resource := none, ScopePermissions := none }
  let tr1 := tr ++ [PermCall.UpdateClientManagementPermissions realmName clientID managementPermissions]
  match api.UpdateClientManagementPermissions tr realmName clientID managementPermissions with
  | some err => (tr1, Outcome.err (errorsWrap err "unable to update client management permissions"))
  | none => (tr1, Outcome.ok)

/-- The method `PutAdminFineGrainedPermissions.Serve`. -/
def PutAdminFineGrainedPermissions.Serve (api : KeycloakApiClient)
    (keycloakClient : KeycloakClient) (realmName : String) (tr : List PermCall) :
    List PermCall × Outcome :=
  let tr1 := tr ++ [PermCall.GetClientID keycloakClient.Spec.ClientId realmName]
  match api.GetClientID tr keycloakClient.Spec.ClientId realmName with
  | Except.error err => (tr1, Outcome.err (GoError.Wrap "failed to get client id: " err))
  | Except.ok clientID =>
    match putKeycloakClientAdminFineGrainedPermissions api keycloakClient realmName clientID tr1 with
    | (tr2, Outcome.err err) =>
      (tr2, Outcome.err (errorsWrap err "unable to put keycloak client admin fine grained permissions"))
    | (tr2, Outcome.nilDeref) => (tr2, Outcome.nilDeref)
    | (tr2, Outcome.ok) =>
      if keycloakClient.Spec.AdminFineGrainedPermissionsEnabled
          && keycloakClient.Spec.Permission.isSome then
        match putKeycloakClientAdminPermissionPolicies api keycloakClient realmName clientID tr2 with
        | (tr3, Outcome.err err) =>
          (tr3, Outcome.err (errorsWrap err "unable to put keycloak client admin permission policies"))
        | (tr3, Outcome.nilDeref) => (tr3, Outcome.nilDeref)
        | (tr3, Outcome.ok) => (tr3, Outcome.ok)
      else
        (tr2, Outcome.ok)

/-! ### A concrete remote, used to evaluate the step on explicit inputs -/

/-- A remote permission object with the given name and no policies. -/
def mkPermission (name : String) : PermissionRepresentation :=
  { ID := some ("id-" ++ name), Name := some name, Description := none, Logic := some "POSITIVE",
    Policies := some [], Resources := none, Scopes := none }

/-- A remote whose look-ups all succeed: the client identifier is the client
name prefixed with `id-`, the realm-management permission map and the existing
scope-permission set are the given ones, and updates fail exactly when
`updateFails` holds. -/
def fixedApi (perms : List (String × PermissionRepresentation))
    (existing : List (String × String)) (flagFails updateFails : Bool) : KeycloakApiClient :=
  { GetClientID := fun _ clientID _ => Except.ok ("id-" ++ clientID),
    UpdateClientManagementPermissions := fun _ _ _ _ =>
      if flagFails then some (GoError.New "flag push refused") else none,
    GetPermissions := fun _ _ _ => Except.ok perms,
    GetClientManagementPermissions := fun _ _ _ =>
      Except.ok { Enabled := some true, Resource := none, ScopePermissions := some existing },
    UpdatePermission := fun _ _ _ _ =>
      if updateFails then some (GoError.New "update refused") else none }

/-- A client declaring the scopes `view` and `manage`, in that order. -/
def clientAB : KeycloakClient :=
  { Spec := { ClientId := "app", AdminFineGrainedPermissionsEnabled := true,
              Permission := some { ScopePermissions :=
                [{ Name := "view", Policies := ["p1"] }, { Name := "manage", Policies := ["p2"] }] } } }

/-! ### Specification vocabulary for the permissions step -/

/-- The three look-up calls that open `putKeycloakClientAdminPermissionPolicies`. -/
def lookupCalls (realmName realmManagementClientID clientID : String) : List PermCall :=
  [PermCall.GetClientID "realm-management" realmName,
   PermCall.GetPermissions realmName realmManagementClientID,
   PermCall.GetClientManagementPermissions realmName clientID]

/-- The three look-ups of `putKeycloakClientAdminPermissionPolicies`, issued after
`tr`, succeed: they yield the realm-management client identifier, the
realm-management permission map and a non-nil scope-permission set. -/
def LookupsSucceed (api : KeycloakApiClient) (realmName clientID : String) (tr : List PermCall)
    (realmManagementClientID : String)
    (realmManagementPermissions : List (String × PermissionRepresentation))
    (existingScopePermissions : List (String × String)) : Prop :=
  api.GetClientID tr "realm-management" realmName = Except.ok realmManagementClientID ∧
  api.GetPermissions (tr ++ [PermCall.GetClientID "realm-management" realmName])
    realmName realmManagementClientID = Except.ok realmManagementPermissions ∧
  ∃ mpr, api.GetClientManagementPermissions
      (tr ++ [PermCall.GetClientID "realm-management" realmName]
          ++ [PermCall.GetPermissions realmName realmManagementClientID])
      realmName clientID = Except.ok mpr ∧
    mpr.ScopePermissions = some existingScopePermissions

/-- The permission objects pushed for a run of declared entries: for each entry
whose generated name is a key of the realm-management permission map, in
declared order, the stored object with its policies replaced by the declared ones. -/
def updatedPermissions (clientID : String)
    (realmManagementPermissions : List (String × PermissionRepresentation))
    (entries : List ScopePermissions) : List PermissionRepresentation :=
  entries.filterMap (fun sp =>
    (realmManagementPermissions.lookup (permissionName sp.Name clientID)).map
      (fun p => { p with Policies := some sp.Policies }))

/-- Recognises an `UpdatePermission` call. -/
def isUpdatePermission : PermCall → Bool
  | PermCall.UpdatePermission _ _ _ => true
  | _ => false

/-- Recognises the calls made only by the policy synchronisation:
`GetPermissions`, `GetClientManagementPermissions` and `UpdatePermission`. -/
def isPolicySyncCall : PermCall → Bool
  | PermCall.GetPermissions _ _ => true
  | PermCall.GetClientManagementPermissions _ _ => true
  | PermCall.UpdatePermission _ _ _ => true
  | _ => false

/-- Recognises an `UpdateClientManagementPermissions` call. -/
def isFlagPush : PermCall → Bool
  | PermCall.UpdateClientManagementPermissions _ _ _ => true
  | _ => false

/-! ## Service-account step (`pkg/controller/keycloakclient/chain/service_account.go`) -/

namespace v1alpha1

/-- One declared per-client role list, `v1alpha1.ClientRole`. -/
structure ClientRole where
  ClientID : String
  Roles : List String
  deriving DecidableEq, Repr

/-- The declared service-account block, `v1alpha1.ServiceAccount`. -/
structure ServiceAccount where
  Enabled : Bool
  RealmRoles : List String
  ClientRoles : List ClientRole
  deriving DecidableEq, Repr

/-- The fields of `v1alpha1.KeycloakClientSpec` read by the service-account step. -/
structure KeycloakClientSpec where
  TargetRealm : String
  Public : Bool
  ServiceAccount : Option ServiceAccount
  deriving DecidableEq, Repr

/-- The fields of `v1alpha1.KeycloakClientStatus` read by the service-account step. -/
structure KeycloakClientStatus where
  ClientID : String
  deriving DecidableEq, Repr

/-- The resource `v1alpha1.KeycloakClient`. -/
structure KeycloakClient where
  Spec : KeycloakClientSpec
  Status : KeycloakClientStatus
  deriving DecidableEq, Repr

end v1alpha1

/-- An event of the client chain: an adapter call, or the hand-over to the next element. -/
inductive ChainCall where
  | SyncServiceAccountRoles (realm clientID : String) (realmRoles : List String)
      (clientRoles : List (String × List String))
  | NextServe (keycloakClient : v1alpha1.KeycloakClient)
  deriving DecidableEq, Repr

/-- The adapter operation used by the service-account step; the first argument
is the list of events before the call. -/
structure AdapterClient where
  SyncServiceAccountRoles :
    List ChainCall → String → String → List String → List (String × List String) → Option GoError

/-- The shared chain state, `BaseElement.State`. -/
structure State where
  AdapterClient : AdapterClient

/-- The chain interface `Element`: something that can serve a client. -/
structure Element where
  Serve : v1alpha1.KeycloakClient → List ChainCall → List ChainCall × Option GoError

/-- The chain element `ServiceAccount` (with the embedded `BaseElement`). -/
structure ServiceAccount where
  State : State
  next : Option Element

/-- Modelled from the spec: `BaseElement.NextServeOrNil`, whose file is not among
the sources; the chain executes its steps strictly in order, so the method
hands the client to the next element when there is one and returns `nil`
otherwise.  The hand-over is recorded as a `NextServe` event. -/
def NextServeOrNil (next : Option Element) (keycloakClient : v1alpha1.KeycloakClient)
    (tr : List ChainCall) : List ChainCall × Option GoError :=
  match next with
  | some el => el.Serve keycloakClient (tr ++ [ChainCall.NextServe keycloakClient])
  | none => (tr, none)

/-- The Go map assignment `m[k] = v` on a map kept as an association list. -/
def mapAssign {β : Type} (m : List (String × β)) (k : String) (v : β) : List (String × β) :=
  match m with
  | [] => [(k, v)]
  | (k1, v1) :: rest => if k1 = k then (k, v) :: rest else (k1, v1) :: mapAssign rest k v

/-- The method `ServiceAccount.Serve`. -/
def ServiceAccount.Serve (el : ServiceAccount) (keycloakClient : v1alpha1.KeycloakClient)
    (tr : List ChainCall) : List ChainCall × Option GoError :=
  match keycloakClient.Spec.ServiceAccount with
  | none => NextServeOrNil el.next keycloakClient tr
  | some serviceAccount =>
    if !serviceAccount.Enabled then
      NextServeOrNil el.next keycloakClient tr
    else if keycloakClient.Spec.Public then
      (tr, some (GoError.New "service account can not be configured with public client"))
    else
      let clientRoles : List (String × List String) :=
        serviceAccount.ClientRoles.foldl (fun m v => mapAssign m v.ClientID v.Roles) []
      let tr1 := tr ++ [ChainCall.SyncServiceAccountRoles keycloakClient.Spec.TargetRealm
        keycloakClient.Status.ClientID serviceAccount.RealmRoles clientRoles]
      match el.State.AdapterClient.SyncServiceAccountRoles tr keycloakClient.Spec.TargetRealm
          keycloakClient.Status.ClientID serviceAccount.RealmRoles clientRoles with
      | some err => (tr1, some (errorsWrap err "unable to sync service account roles"))
      | none => NextServeOrNil el.next keycloakClient tr1

/-- Recognises an adapter call among the chain events. -/
def isAdapterCall : ChainCall → Bool
  | ChainCall.SyncServiceAccountRoles _ _ _ _ => true
  | ChainCall.NextServe _ => false

/-- Recognises the hand-over to the next chain element. -/
def isNextServe : ChainCall → Bool
  | ChainCall.NextServe _ => true
  | ChainCall.SyncServiceAccountRoles _ _ _ _ => false

/-- A chain element with a succeeding adapter and a succeeding next element. -/
def sampleServiceAccount : ServiceAccount :=
  { State := { AdapterClient := { SyncServiceAccountRoles := fun _ _ _ _ _ => none } },
    next := some { Serve := fun _ tr => (tr, none) } }

/-- A public client that requests a service account. -/
def publicClientWithAccount : v1alpha1.KeycloakClient :=
  { Spec := { TargetRealm := "master", Public := true,
              ServiceAccount := some { Enabled := true, RealmRoles := ["admin"],
                                       ClientRoles := [{ ClientID := "c1", Roles := ["r1"] }] } },
    Status := { ClientID := "id-app" } }

/-! ## Realm-component controller
(`controllers/keycloakrealmcomponent/keycloakrealmcomponent_controller.go`) -/

/-- The constant `finalizerName`. -/
def finalizerName : String := "keycloak.realmcomponent.operator.finalizer.name"

/-- Modelled from the spec: the constant `keycloakApi.KeycloakRealmKind`, declared
outside the sources; the kind of a parent reference is one of two distinct
values, realm or component. -/
def KeycloakRealmKind : String := "KeycloakRealm"

/-- Modelled from the spec: the constant `keycloakApi.KeycloakRealmComponentKind`,
declared outside the sources; the kind of a parent reference is one of two
distinct values, realm or component. -/
def KeycloakRealmComponentKind : String := "KeycloakRealmComponent"

/-- The key `types.NamespacedName`. -/
structure NamespacedName where
  Namespace : String
  Name : String
  deriving DecidableEq, Repr

/-- The Kubernetes `metav1.OwnerReference`. -/
structure OwnerReference where
  APIVersion : String
  Kind : String
  Name : String
  UID : String
  BlockOwnerDeletion : Option Bool
  Controller : Option Bool
  deriving DecidableEq, Repr

/-- The fields of `metav1.ObjectMeta` the controller touches. -/
structure ObjectMeta where
  Name : String
  Namespace : String
  UID : String
  OwnerReferences : List OwnerReference
  Finalizers : List String
  DeletionTimestamp : Option Nat
  deriving DecidableEq, Repr

/-- The parent reference of a component spec (`Kind`, `Name`). -/
structure ParentRef where
  Kind : String
  Name : String
  deriving DecidableEq, Repr

/-- The spec `keycloakApi.KeycloakComponentSpec`. -/
structure KeycloakComponentSpec where
  Name : String
  Config : List (String × List String)
  ProviderID : String
  ProviderType : String
  ParentRef : Option ParentRef
  deriving DecidableEq, Repr

/-- The status `keycloakApi.KeycloakComponentStatus`. -/
structure KeycloakComponentStatus where
  Value : String
  FailureCount : Int
  deriving DecidableEq, Repr

/-- The resource `keycloakApi.KeycloakRealmComponent`. -/
structure KeycloakRealmComponent where
  ObjectMeta : ObjectMeta
  Spec : KeycloakComponentSpec
  Status : KeycloakComponentStatus
  deriving DecidableEq, Repr

/-- The fields of `keycloakApi.KeycloakRealmSpec` the controller reads. -/
structure KeycloakRealmSpec where
  RealmName : String
  deriving DecidableEq, Repr

/-- The resource `keycloakApi.KeycloakRealm`. -/
structure KeycloakRealm where
  ObjectMeta : ObjectMeta
  Spec : KeycloakRealmSpec
  deriving DecidableEq, Repr

/-- The remote representation `adapter.Component`. -/
structure Component where
  ID : String
  Name : String
  Config : List (String × List String)
  ProviderID : String
  ProviderType : String
  ParentID : String
  deriving DecidableEq, Repr

/-- The fields of `gocloak.RealmRepresentation` the controller reads. -/
structure RealmRepresentation where
  ID : Option String
  Realm : Option String
  deriving DecidableEq, Repr

/-- The type descriptor `schema.GroupVersionKind`. -/
structure GroupVersionKind where
  Group : String
  Version : String
  Kind : String
  deriving DecidableEq, Repr

/-- The text `gvk.GroupVersion().String()`. -/
def GroupVersionKind.GroupVersionString (gvk : GroupVersionKind) : String :=
  if gvk.Group = "" then gvk.Version else gvk.Group ++ "/" ++ gvk.Version

/-- The value `reconcile.Result`; `RequeueAfter` is a duration in nanoseconds. -/
structure Result where
  Requeue : Bool
  RequeueAfter : Nat
  deriving DecidableEq, Repr

/-- A call issued by one reconciliation cycle to a collaborator. -/
inductive CtlCall where
  | ClientGetComponent (key : NamespacedName)
  | ClientGetRealm (key : NamespacedName)
  | ClientUpdate (obj : KeycloakRealmComponent)
  | ClientStatusUpdate (obj : KeycloakRealmComponent)
  | SetFailureCount (obj : KeycloakRealmComponent)
  | UpdateStatus (obj : KeycloakRealmComponent)
  | GetOrCreateRealmOwnerRef (obj : KeycloakRealmComponent)
  | CreateKeycloakClientForRealm (realm : KeycloakRealm)
  | TryToDelete (obj : KeycloakRealmComponent) (realmName componentName finalizer : String)
  | GetRealm (realm : String)
  | GetComponent (realm name : String)
  | CreateComponent (realm : String) (component : Component)
  | UpdateComponent (realm : String) (component : Component)
  deriving DecidableEq, Repr

/-- The operations of `keycloak.Client` used by the controller; the first
argument of each is the list of calls issued before this one. -/
structure KClient where
  GetRealm : List CtlCall → String → Except GoError RealmRepresentation
  GetComponent : List CtlCall → String → String → Except GoError Component
  CreateComponent : List CtlCall → String → Component → Option GoError
  UpdateComponent : List CtlCall → String → Component → Option GoError

/-- The operations of the Kubernetes `client.Client` used by the controller.
`Get` is split by the type of the object it fills in. -/
structure K8sClient where
  GetComponent : List CtlCall → NamespacedName → Except GoError KeycloakRealmComponent
  GetRealm : List CtlCall → NamespacedName → Except GoError KeycloakRealm
  Update : List CtlCall → KeycloakRealmComponent → Option GoError
  StatusUpdate : List CtlCall → KeycloakRealmComponent → Option GoError

/-- Modelled from the spec: the terminator built by `makeTerminator`, whose file is
not among the sources: it is bound to the realm name, the component name and
the remote client. -/
structure Terminator where
  realmName : String
  componentName : String
  kClient : KClient

/-- Modelled from the spec: the function `makeTerminator`, whose file is not among
the sources; it only builds the terminator from its arguments. -/
def makeTerminator (realmName componentName : String) (kClient : KClient) : Terminator :=
  { realmName := realmName, componentName := componentName, kClient := kClient }

/-- The interface `Helper`.  A method that receives the resource by pointer
returns the resource as it leaves it. -/
structure Helper where
  SetFailureCount : List CtlCall → KeycloakRealmComponent → KeycloakRealmComponent × Nat
  UpdateStatus : List CtlCall → KeycloakRealmComponent → Option GoError
  GetOrCreateRealmOwnerRef :
    List CtlCall → KeycloakRealmComponent → KeycloakRealmComponent × Except GoError KeycloakRealm
  CreateKeycloakClientForRealm : List CtlCall → KeycloakRealm → Except GoError KClient
  TryToDelete : List CtlCall → KeycloakRealmComponent → Terminator → String →
    KeycloakRealmComponent × Except GoError Bool

/-- The struct `Reconcile`, together with the imported package-level functions
its methods call: `k8sErrors.IsNotFound`, `adapter.IsErrNotFound`,
`helper.SetSuccessStatus` and `apiutil.GVKForObject` (applied to the scheme). -/
structure Reconcile where
  client : K8sClient
  helper : Helper
  IsNotFound : GoError → Bool
  IsErrNotFound : GoError → Bool
  SetSuccessStatus : KeycloakRealmComponent → KeycloakRealmComponent
  GVKForObject : KeycloakRealmComponent → Except GoError GroupVersionKind

/-- The method `Reconcile.getParentID`. -/
def Reconcile.getParentID (r : Reconcile) (component : KeycloakRealmComponent)
    (kcRealmName : String) (kClient : KClient) (tr : List CtlCall) :
    List CtlCall × Except GoError String :=
  match component.Spec.ParentRef with
  | none => (tr, Except.ok "")
  | some parentRef =>
    if parentRef.Kind = KeycloakRealmKind then
      let key : NamespacedName :=
        { Name := parentRef.Name, Namespace := component.ObjectMeta.Namespace }
      let tr1 := tr ++ [CtlCall.ClientGetRealm key]
      match r.client.GetRealm tr key with
      | Except.error err =>
        (tr1, Except.error (GoError.Wrap "unable to get parent kcRealmName: " err))
      | Except.ok parentRealm =>
        let tr2 := tr1 ++ [CtlCall.GetRealm parentRealm.Spec.RealmName]
        match kClient.GetRealm tr1 parentRealm.Spec.RealmName with
        | Except.error err =>
          (tr2, Except.error (GoError.Wrap "unable to get parent kcRealmName: " err))
        | Except.ok kcParentRealm =>
          match kcParentRealm.ID with
          | none => (tr2, Except.error (GoError.New "kcRealmName id is empty"))
          | some id =>
            if id = "" then (tr2, Except.error (GoError.New "kcRealmName id is empty"))
            else (tr2, Except.ok id)
    else if parentRef.Kind = KeycloakRealmComponentKind then
      let key : NamespacedName :=
        { Name := parentRef.Name, Namespace := component.ObjectMeta.Namespace }
      let tr1 := tr ++ [CtlCall.ClientGetComponent key]
      match r.client.GetComponent tr key with
      | Except.error err =>
        (tr1, Except.error (GoError.Wrap "unable to get parent component: " err))
      | Except.ok parentComponent =>
        let tr2 := tr1 ++ [CtlCall.GetComponent kcRealmName parentComponent.Spec.Name]
        match kClient.GetComponent tr1 kcRealmName parentComponent.Spec.Name with
        | Except.error err =>
          (tr2, Except.error (GoError.Wrap "unable to get parent component: " err))
        | Except.ok kcParentComponent => (tr2, Except.ok kcParentComponent.ID)
    else
      (tr, Except.error (GoError.New ("parent kind " ++ parentRef.Kind ++ " is not supported")))

/-- The method `Reconcile.createKeycloakComponent`. -/
def Reconcile.createKeycloakComponent (r : Reconcile) (component : KeycloakRealmComponent)
    (kcRealmName : String) (kClient : KClient) (tr : List CtlCall) :
    List CtlCall × Except GoError Component :=
  let ksComponent : Component :=
    { ID := "", Name := component.Spec.Name, Config := component.Spec.Config,
      ProviderID := component.Spec.ProviderID, ProviderType := component.Spec.ProviderType,
      ParentID := "" }
  match r.getParentID component kcRealmName kClient tr with
  | (tr1, Except.error err) => (tr1, Except.error (GoError.Wrap "unable to get parent id: " err))
  | (tr1, Except.ok parenID) =>
    if parenID ≠ "" then (tr1, Except.ok { ksComponent with ParentID := parenID })
    else (tr1, Except.ok ksComponent)

/-- The method `Reconcile.tryReconcile`. -/
def Reconcile.tryReconcile (r : Reconcile) (keycloakRealmComponent : KeycloakRealmComponent)
    (realm : KeycloakRealm) (kClient : KClient) (tr : List CtlCall) :
    List CtlCall × Option GoError :=
  match r.createKeycloakComponent keycloakRealmComponent realm.Spec.RealmName kClient tr with
  | (tr1, Except.error err) => (tr1, some (GoError.Wrap "unable to create keycloak component: " err))
  | (tr1, Except.ok keycloakComponent) =>
    let tr2 := tr1 ++ [CtlCall.GetComponent realm.Spec.RealmName keycloakRealmComponent.Spec.Name]
    match kClient.GetComponent tr1 realm.Spec.RealmName keycloakRealmComponent.Spec.Name with
    | Except.error err =>
      if !r.IsErrNotFound err then
        (tr2, some (GoError.Wrap "unable to get component, unexpected error: " err))
      else
        let tr3 := tr2 ++ [CtlCall.CreateComponent realm.Spec.RealmName keycloakComponent]
        match kClient.CreateComponent tr2 realm.Spec.RealmName keycloakComponent with
        | some err => (tr3, some (GoError.Wrap "unable to create component " err))
        | none => (tr3, none)
    | Except.ok cmp =>
      let keycloakComponent := { keycloakComponent with ID := cmp.ID }
      let tr3 := tr2 ++ [CtlCall.UpdateComponent realm.Spec.RealmName keycloakComponent]
      match kClient.UpdateComponent tr2 realm.Spec.RealmName keycloakComponent with
      | some err => (tr3, some (GoError.Wrap "unable to update component: " err))
      | none => (tr3, none)

/-- The method `Reconcile.setComponentOwnerReference`; the second component of
the result is the resource as the method leaves it. -/
def Reconcile.setComponentOwnerReference (r : Reconcile) (component : KeycloakRealmComponent)
    (tr : List CtlCall) : List CtlCall × KeycloakRealmComponent × Option GoError :=
  match component.Spec.ParentRef with
  | none => (tr, component, none)
  | some parentRef =>
    if parentRef.Kind ≠ KeycloakRealmComponentKind then (tr, component, none)
    else if component.ObjectMeta.OwnerReferences.any
        (fun ref => decide (ref.Kind = KeycloakRealmComponentKind)) then
      (tr, component, none)
    else
      let key : NamespacedName :=
        { Name := parentRef.Name, Namespace := component.ObjectMeta.Namespace }
      let tr1 := tr ++ [CtlCall.ClientGetComponent key]
      match r.client.GetComponent tr key with
      | Except.error err =>
        (tr1, component, some (GoError.Wrap "unable to get parent component: " err))
      | Except.ok parentComponent =>
        match r.GVKForObject parentComponent with
        | Except.error err =>
          (tr1, component, some (GoError.Wrap "unable to get gvk for parent component: " err))
        | Except.ok gvk =>
          let ref : OwnerReference :=
            { APIVersion := gvk.GroupVersionString, Kind := gvk.Kind,
              Name := parentComponent.ObjectMeta.Name, UID := parentComponent.ObjectMeta.UID,
              BlockOwnerDeletion := some true, Controller := some true }
          let component :=
            { component with ObjectMeta := { component.ObjectMeta with OwnerReferences := [ref] } }
          let tr2 := tr1 ++ [CtlCall.ClientUpdate component]
          match r.client.Update tr1 component with
          | some err =>
            (tr2, component, some (GoError.Wrap
              ("failed to set owner reference " ++ parentComponent.ObjectMeta.Name ++ ": ") err))
          | none => (tr2, component, none)

/-- The method `Reconcile.Reconcile`. -/
def Reconcile.Reconcile (r : Reconcile) (request : NamespacedName) (tr : List CtlCall) :
    List CtlCall × Result × Option GoError :=
  let tr1 := tr ++ [CtlCall.ClientGetComponent request]
  match r.client.GetComponent tr request with
  | Except.error err =>
    if r.IsNotFound err then (tr1, { Requeue := false, RequeueAfter := 0 }, none)
    else (tr1, { Requeue := false, RequeueAfter := 0 },
      some (GoError.Wrap "unable to get KeycloakRealmComponent: " err))
  | Except.ok keycloakRealmComponent =>
    let tr2 := tr1 ++ [CtlCall.GetOrCreateRealmOwnerRef keycloakRealmComponent]
    match r.helper.GetOrCreateRealmOwnerRef tr1 keycloakRealmComponent with
    | (_, Except.error err) =>
      (tr2, { Requeue := false, RequeueAfter := 0 },
        some (GoError.Wrap "unable to get realm owner ref: " err))
    | (keycloakRealmComponent, Except.ok realm) =>
      match r.setComponentOwnerReference keycloakRealmComponent tr2 with
      | (tr3, _, some err) => (tr3, { Requeue := false, RequeueAfter := 0 }, some err)
      | (tr3, keycloakRealmComponent, none) =>
        let tr4 := tr3 ++ [CtlCall.CreateKeycloakClientForRealm realm]
        match r.helper.CreateKeycloakClientForRealm tr3 realm with
        | Except.error err =>
          (tr4, { Requeue := false, RequeueAfter := 0 },
            some (GoError.Wrap "unable to create keycloak client: " err))
        | Except.ok kClient =>
          let term := makeTerminator realm.Spec.RealmName keycloakRealmComponent.Spec.Name kClient
          let tr5 := tr4 ++ [CtlCall.TryToDelete keycloakRealmComponent realm.Spec.RealmName
            keycloakRealmComponent.Spec.Name finalizerName]
          match r.helper.TryToDelete tr4 keycloakRealmComponent term finalizerName with
          | (_, Except.error err) =>
            (tr5, { Requeue := false, RequeueAfter := 0 },
              some (GoError.Wrap "unable to tryToDelete realm component " err))
          | (_, Except.ok true) => (tr5, { Requeue := false, RequeueAfter := 0 }, none)
          | (keycloakRealmComponent, Except.ok false) =>
            match r.tryReconcile keycloakRealmComponent realm kClient tr5 with
            | (tr6, some err) =>
              let keycloakRealmComponent :=
                { keycloakRealmComponent with
                  Status := { keycloakRealmComponent.Status with Value := err.Error } }
              let tr7 := tr6 ++ [CtlCall.ClientStatusUpdate keycloakRealmComponent]
              match r.client.StatusUpdate tr6 keycloakRealmComponent with
              | some statusErr =>
                (tr7, { Requeue := false, RequeueAfter := 0 },
                  some (GoError.Wrap "unable to update KeycloakRealmComponent status: " statusErr))
              | none =>
                (tr7, { Requeue := false, RequeueAfter := 0 },
                  some (GoError.Wrap "unable to reconcile KeycloakRealmComponent: " err))
            | (tr6, none) =>
              let keycloakRealmComponent := r.SetSuccessStatus keycloakRealmComponent
              let tr7 := tr6 ++ [CtlCall.ClientStatusUpdate keycloakRealmComponent]
              match r.client.StatusUpdate tr6 keycloakRealmComponent with
              | some err =>
                (tr7, { Requeue := false, RequeueAfter := 0 },
                  some (GoError.Wrap "unable to update KeycloakRealmComponent status: " err))
              | none => (tr7, { Requeue := false, RequeueAfter := 0 }, none)

/-- Recognises a mutating call on remote components. -/
def isComponentWrite : CtlCall → Bool
  | CtlCall.CreateComponent _ _ => true
  | CtlCall.UpdateComponent _ _ => true
  | _ => false

/-- Recognises a `CreateComponent` call. -/
def isCreateComponent : CtlCall → Bool
  | CtlCall.CreateComponent _ _ => true
  | _ => false

/-- Recognises a write through the Kubernetes client. -/
def isClientWrite : CtlCall → Bool
  | CtlCall.ClientUpdate _ => true
  | CtlCall.ClientStatusUpdate _ => true
  | _ => false

/-- The representation `createKeycloakComponent` derives from the spec and a
resolved parent identifier. -/
def specRepresentation (component : KeycloakRealmComponent) (parentID : String) : Component :=
  { ID := "", Name := component.Spec.Name, Config := component.Spec.Config,
    ProviderID := component.Spec.ProviderID, ProviderType := component.Spec.ProviderType,
    ParentID := parentID }

/-- The calls issued by `n` consecutive runs of `tryReconcile` on the same,
unchanged resource, each run starting from the calls issued so far. -/
def tryReconcileCycles (r : Reconcile) (keycloakRealmComponent : KeycloakRealmComponent)
    (realm : KeycloakRealm) (kClient : KClient) : Nat → List CtlCall → List CtlCall
  | 0, tr => tr
  | n + 1, tr =>
    tryReconcileCycles r keycloakRealmComponent realm kClient n
      (r.tryReconcile keycloakRealmComponent realm kClient tr).1

/-- Recognises a read: a `Get` through the Kubernetes client or a remote look-up. -/
def isLookup : CtlCall → Bool
  | CtlCall.ClientGetComponent _ => true
  | CtlCall.ClientGetRealm _ => true
  | CtlCall.GetRealm _ => true
  | CtlCall.GetComponent _ _ => true
  | _ => false

/-- Recognises a call to the failure backoff policy, `Helper.SetFailureCount`. -/
def isSetFailureCount : CtlCall → Bool
  | CtlCall.SetFailureCount _ => true
  | _ => false

/-- The failure counters persisted through `Status().Update`, oldest first. -/
def persistedFailureCounts : List CtlCall → List Int
  | [] => []
  | CtlCall.ClientStatusUpdate obj :: rest => obj.Status.FailureCount :: persistedFailureCounts rest
  | _ :: rest => persistedFailureCounts rest

/-! ### Concrete collaborators, used to evaluate the controller on explicit inputs -/

/-- An object meta with the given name in namespace `ns`. -/
def sampleMeta (name : String) (refs : List OwnerReference) : ObjectMeta :=
  { Name := name, Namespace := "ns", UID := "uid-" ++ name, OwnerReferences := refs,
    Finalizers := [], DeletionTimestamp := none }

/-- A component resource named `name` with the given parent reference and owner references. -/
def sampleComponent (name : String) (parent : Option ParentRef) (refs : List OwnerReference) :
    KeycloakRealmComponent :=
  { ObjectMeta := sampleMeta name refs,
    Spec := { Name := name, Config := [("priority", ["0"])], ProviderID := "ldap",
              ProviderType := "org.keycloak.storage.UserStorageProvider", ParentRef := parent },
    Status := { Value := "", FailureCount := 0 } }

/-- The realm resource `main`, whose remote realm is `master`. -/
def sampleRealm : KeycloakRealm :=
  { ObjectMeta := sampleMeta "main" [], Spec := { RealmName := "master" } }

/-- Recognises a `CreateComponent` call for the component `name` of `realm`. -/
def createsComponent (realm name : String) : CtlCall → Bool
  | CtlCall.CreateComponent r rep => decide (r = realm) && decide (rep.Name = name)
  | _ => false

/-- A remote store of components: a component is found, under the identifier
`id-<name>`, once a `CreateComponent` call for its name has been issued in its
realm; before that the look-up fails with `not found`.  When `broken` is set
every look-up fails with `connection refused` instead.  `parentID` is the
identifier reported for the component `parent`, which is always present. -/
def storeKClient (broken : Bool) (parentID : String) : KClient :=
  { GetRealm := fun _ realm =>
      Except.ok { ID := some ("id-" ++ realm), Realm := some realm },
    GetComponent := fun h realm name =>
      if broken then Except.error (GoError.New "connection refused")
      else if name = "parent" then
        Except.ok { ID := parentID, Name := "parent", Config := [], ProviderID := "ldap",
                    ProviderType := "", ParentID := "" }
      else
        match h.find? (createsComponent realm name) with
        | some (CtlCall.CreateComponent _ rep) => Except.ok { rep with ID := "id-" ++ name }
        | _ => Except.error (GoError.New "not found"),
    CreateComponent := fun _ _ _ => none,
    UpdateComponent := fun _ _ _ => none }

/-- A Kubernetes client holding the component `parent` and the realm `main`;
every write succeeds. -/
def sampleK8sClient (stored : KeycloakRealmComponent) : K8sClient :=
  { GetComponent := fun _ key =>
      if key.Name = "parent" then Except.ok (sampleComponent "parent" none [])
      else if key.Name = stored.ObjectMeta.Name then Except.ok stored
      else Except.error (GoError.New "not found"),
    GetRealm := fun _ key =>
      if key.Name = "main" then Except.ok sampleRealm
      else Except.error (GoError.New "not found"),
    Update := fun _ _ => none,
    StatusUpdate := fun _ _ => none }

/-- A helper whose backoff policy answers ten seconds and counts the failure,
whose owning realm is `main`, and which never finds the resource marked for deletion. -/
def sampleHelper (kClient : KClient) : Helper :=
  { SetFailureCount := fun _ obj =>
      ({ obj with Status := { obj.Status with FailureCount := obj.Status.FailureCount + 1 } },
       10000000000),
    UpdateStatus := fun _ _ => none,
    GetOrCreateRealmOwnerRef := fun _ obj => (obj, Except.ok sampleRealm),
    CreateKeycloakClientForRealm := fun _ _ => Except.ok kClient,
    TryToDelete := fun _ obj _ _ => (obj, Except.ok false) }

/-- A reconciler over the sample collaborators.  The not-found predicates
recognise the error text `not found`; the scheme knows the component type. -/
def sampleReconcile (stored : KeycloakRealmComponent) (kClient : KClient) : Reconcile :=
  { client := sampleK8sClient stored,
    helper := sampleHelper kClient,
    IsNotFound := fun e => decide (e = GoError.New "not found"),
    IsErrNotFound := fun e => decide (e = GoError.New "not found"),
    SetSuccessStatus := fun obj => { obj with Status := { Value := "OK", FailureCount := 0 } },
    GVKForObject := fun _ =>
      Except.ok { Group := "v1.edp.epam.com", Version := "v1", Kind := "KeycloakRealmComponent" } }

/-! ### Lemmas on the permissions step -/

theorem putPolicies_eq_loop (api : KeycloakApiClient) (kc : KeycloakClient)
    (realmName clientID : String) (tr : List PermCall) (rmcid : String)
    (rmPerms : List (String × PermissionRepresentation)) (existing : List (String × String))
    (perm : ClientPermission)
    (hl : LookupsSucceed api realmName clientID tr rmcid rmPerms existing)
    (hp : kc.Spec.Permission = some perm) :
    putKeycloakClientAdminPermissionPolicies api kc realmName clientID tr =
      policiesLoop api realmName rmcid clientID existing rmPerms perm.ScopePermissions
        (tr ++ lookupCalls realmName rmcid clientID) := by
  obtain ⟨h1, h2, mpr, h3, h4⟩ := hl
  simp only [putKeycloakClientAdminPermissionPolicies, h1, h2, h3, h4, hp, lookupCalls]
  simp [List.append_assoc]

theorem policiesLoop_append (api : KeycloakApiClient) (realmName rmcid clientID : String)
    (existing : List (String × String)) (rmPerms : List (String × PermissionRepresentation))
    (pre rest : List ScopePermissions) :
    ∀ tr : List PermCall,
      (∀ x ∈ pre, (existing.lookup x.Name).isSome = true) →
      (∀ j p, (updatedPermissions clientID rmPerms pre)[j]? = some p →
        api.UpdatePermission
          (tr ++ ((updatedPermissions clientID rmPerms pre).take j).map
            (PermCall.UpdatePermission realmName rmcid)) realmName rmcid p = none) →
      policiesLoop api realmName rmcid clientID existing rmPerms (pre ++ rest) tr =
        policiesLoop api realmName rmcid clientID existing rmPerms rest
          (tr ++ (updatedPermissions clientID rmPerms pre).map
            (PermCall.UpdatePermission realmName rmcid)) := by
  induction pre with
  | nil => intro tr _ _; simp [updatedPermissions]
  | cons x pre ih =>
    intro tr hin hok
    have hx : (existing.lookup x.Name).isSome = true := hin x (List.mem_cons_self _ _)
    have hin2 : ∀ y ∈ pre, (existing.lookup y.Name).isSome = true :=
      fun y hy => hin y (List.mem_cons_of_mem _ hy)
    obtain ⟨v, hv⟩ := Option.isSome_iff_exists.mp hx
    cases hq : rmPerms.lookup (permissionName x.Name clientID) with
    | none =>
      have hu : updatedPermissions clientID rmPerms (x :: pre) =
          updatedPermissions clientID rmPerms pre := by
        simp [updatedPermissions, hq]
      rw [hu] at hok
      rw [hu, ← ih tr hin2 hok]
      simp [policiesLoop, hv, hq]
    | some q =>
      have hu : updatedPermissions clientID rmPerms (x :: pre) =
          { q with Policies := some x.Policies } :: updatedPermissions clientID rmPerms pre := by
        simp [updatedPermissions, hq]
      rw [hu] at hok
      have h0 := hok 0 { q with Policies := some x.Policies } (by simp)
      simp only [List.take_zero, List.map_nil, List.append_nil] at h0
      have hok2 : ∀ j p, (updatedPermissions clientID rmPerms pre)[j]? = some p →
          api.UpdatePermission
            ((tr ++ [PermCall.UpdatePermission realmName rmcid { q with Policies := some x.Policies }])
              ++ ((updatedPermissions clientID rmPerms pre).take j).map
                (PermCall.UpdatePermission realmName rmcid)) realmName rmcid p = none := by
        intro j p hj
        have := hok (j + 1) p (by simpa using hj)
        simpa [List.append_assoc] using this
      have := ih (tr ++ [PermCall.UpdatePermission realmName rmcid
        { q with Policies := some x.Policies }]) hin2 hok2
      rw [hu]
      simp only [List.cons_append, policiesLoop, hv, hq, h0, List.map_cons, List.append_eq]
      rw [this]
      simp [List.append_assoc]

theorem policiesLoop_remove_orphan (api : KeycloakApiClient) (realmName rmcid clientID : String)
    (existing : List (String × String)) (rmPerms : List (String × PermissionRepresentation))
    (e : ScopePermissions) (post : List ScopePermissions)
    (he : (existing.lookup e.Name).isSome = true)
    (hn : rmPerms.lookup (permissionName e.Name clientID) = none)
    (pre : List ScopePermissions) :
    ∀ tr : List PermCall,
      policiesLoop api realmName rmcid clientID existing rmPerms (pre ++ e :: post) tr =
        policiesLoop api realmName rmcid clientID existing rmPerms (pre ++ post) tr := by
  obtain ⟨v, hv⟩ := Option.isSome_iff_exists.mp he
  induction pre with
  | nil => intro tr; simp [policiesLoop, hv, hn]
  | cons x pre ih =>
    intro tr
    simp only [List.cons_append, policiesLoop]
    cases existing.lookup x.Name with
    | none => rfl
    | some _ =>
      cases rmPerms.lookup (permissionName x.Name clientID) with
      | none => exact ih tr
      | some q =>
        simp only
        cases api.UpdatePermission tr realmName rmcid { q with Policies := some x.Policies } with
        | none => exact ih _
        | some _ => rfl

theorem policiesLoop_all_orphans (api : KeycloakApiClient) (realmName rmcid clientID : String)
    (existing : List (String × String)) (rmPerms : List (String × PermissionRepresentation))
    (entries : List ScopePermissions)
    (h : ∀ e ∈ entries, (existing.lookup e.Name).isSome = true ∧
      rmPerms.lookup (permissionName e.Name clientID) = none) (tr : List PermCall) :
    policiesLoop api realmName rmcid clientID existing rmPerms entries tr = (tr, Outcome.ok) := by
  induction entries with
  | nil => rfl
  | cons x rest ih =>
    obtain ⟨hx, hn⟩ := h x (List.mem_cons_self _ _)
    obtain ⟨v, hv⟩ := Option.isSome_iff_exists.mp hx
    simp only [policiesLoop, hv, hn]
    exact ih (fun e he => h e (List.mem_cons_of_mem _ he))

theorem policiesLoop_trace (api : KeycloakApiClient) (realmName rmcid clientID : String)
    (existing : List (String × String)) (rmPerms : List (String × PermissionRepresentation))
    (entries : List ScopePermissions) :
    ∀ tr : List PermCall, ∃ ups : List PermCall,
      (policiesLoop api realmName rmcid clientID existing rmPerms entries tr).1 = tr ++ ups ∧
      ∀ c ∈ ups, isUpdatePermission c = true := by
  induction entries with
  | nil => intro tr; exact ⟨[], by simp [policiesLoop], by simp⟩
  | cons x rest ih =>
    intro tr
    simp only [policiesLoop]
    cases existing.lookup x.Name with
    | none => exact ⟨[], by simp, by simp⟩
    | some _ =>
      cases rmPerms.lookup (permissionName x.Name clientID) with
      | none => exact ih tr
      | some q =>
        simp only
        cases api.UpdatePermission tr realmName rmcid { q with Policies := some x.Policies } with
        | some _ =>
          exact ⟨[PermCall.UpdatePermission realmName rmcid { q with Policies := some x.Policies }],
            rfl, by simp [isUpdatePermission]⟩
        | none =>
          obtain ⟨ups, h1, h2⟩ := ih (tr ++ [PermCall.UpdatePermission realmName rmcid
            { q with Policies := some x.Policies }])
          refine ⟨PermCall.UpdatePermission realmName rmcid
            { q with Policies := some x.Policies } :: ups, ?_, ?_⟩
          · rw [h1]; simp
          · intro c hc
            rcases List.mem_cons.mp hc with rfl | hc
            · rfl
            · exact h2 c hc

theorem putPolicies_trace (api : KeycloakApiClient) (kc : KeycloakClient)
    (realmName clientID : String) (tr : List PermCall) :
    ∃ more : List PermCall,
      (putKeycloakClientAdminPermissionPolicies api kc realmName clientID tr).1 =
        tr ++ PermCall.GetClientID "realm-management" realmName :: more ∧
      ∀ c ∈ more, isFlagPush c = false := by
  unfold putKeycloakClientAdminPermissionPolicies
  cases api.GetClientID tr "realm-management" realmName with
  | error e => exact ⟨[], by simp, by simp⟩
  | ok rmcid =>
    simp only
    cases api.GetPermissions (tr ++ [PermCall.GetClientID "realm-management" realmName])
        realmName rmcid with
    | error e => exact ⟨[PermCall.GetPermissions realmName rmcid], by simp, by simp [isFlagPush]⟩
    | ok rmPerms =>
      simp only
      cases api.GetClientManagementPermissions
          (tr ++ [PermCall.GetClientID "realm-management" realmName]
            ++ [PermCall.GetPermissions realmName rmcid]) realmName clientID with
      | error e =>
        exact ⟨[PermCall.GetPermissions realmName rmcid,
          PermCall.GetClientManagementPermissions realmName clientID], by simp, by simp [isFlagPush]⟩
      | ok mpr =>
        simp only
        cases mpr.ScopePermissions with
        | none =>
          exact ⟨[PermCall.GetPermissions realmName rmcid,
            PermCall.GetClientManagementPermissions realmName clientID], by simp,
            by simp [isFlagPush]⟩
        | some existing =>
          simp only
          cases kc.Spec.Permission with
          | none =>
            exact ⟨[PermCall.GetPermissions realmName rmcid,
              PermCall.GetClientManagementPermissions realmName clientID], by simp,
              by simp [isFlagPush]⟩
          | some perm =>
            simp only
            obtain ⟨ups, h1, h2⟩ := policiesLoop_trace api realmName rmcid clientID existing rmPerms
              perm.ScopePermissions
              (tr ++ [PermCall.GetClientID "realm-management" realmName]
                ++ [PermCall.GetPermissions realmName rmcid]
                ++ [PermCall.GetClientManagementPermissions realmName clientID])
            refine ⟨PermCall.GetPermissions realmName rmcid ::
              PermCall.GetClientManagementPermissions realmName clientID :: ups, ?_, ?_⟩
            · rw [h1]; simp
            · intro c hc
              rcases List.mem_cons.mp hc with rfl | hc
              · rfl
              · rcases List.mem_cons.mp hc with rfl | hc
                · rfl
                · have := h2 c hc
                  cases c <;> simp_all [isUpdatePermission, isFlagPush]

/-! ### Claims on the permissions step -/

/-- C2 (fail-fast in declared order).  When the three look-ups succeed, `k` is the
index of the first declared entry whose name is not in the existing
scope-permission set, and every update issued for an earlier entry succeeds,
the step returns the error `scope <Name_k> not found in permissions`, and the
calls it issued after the look-ups are exactly the `UpdatePermission` calls, in
declared order, for the entries before `k` whose generated name is a key of the
realm-management permission map: nothing is issued for an entry at index `k` or later. -/
theorem C2_fail_fast_in_declared_order (api : KeycloakApiClient) (kc : KeycloakClient)
    (realmName clientID : String) (tr : List PermCall) (rmcid : String)
    (rmPerms : List (String × PermissionRepresentation)) (existing : List (String × String))
    (perm : ClientPermission) (k : Nat) (e : ScopePermissions)
    (hl : LookupsSucceed api realmName clientID tr rmcid rmPerms existing)
    (hp : kc.Spec.Permission = some perm)
    (hk : perm.ScopePermissions[k]? = some e)
    (hbad : existing.lookup e.Name = none)
    (hfirst : ∀ i x, i < k → perm.ScopePermissions[i]? = some x →
      (existing.lookup x.Name).isSome = true)
    (hupd : ∀ j p,
      (updatedPermissions clientID rmPerms (perm.ScopePermissions.take k))[j]? = some p →
      api.UpdatePermission
        (tr ++ lookupCalls realmName rmcid clientID ++
          ((updatedPermissions clientID rmPerms (perm.ScopePermissions.take k)).take j).map
            (PermCall.UpdatePermission realmName rmcid)) realmName rmcid p = none) :
    putKeycloakClientAdminPermissionPolicies api kc realmName clientID tr =
      (tr ++ lookupCalls realmName rmcid clientID ++
        (updatedPermissions clientID rmPerms (perm.ScopePermissions.take k)).map
          (PermCall.UpdatePermission realmName rmcid),
       Outcome.err (GoError.New ("scope " ++ e.Name ++ " not found in permissions"))) ∧
    (GoError.New ("scope " ++ e.Name ++ " not found in permissions")).Error =
      "scope " ++ e.Name ++ " not found in permissions" := by
  refine ⟨?_, rfl⟩
  rw [putPolicies_eq_loop api kc realmName clientID tr rmcid rmPerms existing perm hl hp]
  have hklt : k < perm.ScopePermissions.length := by
    rcases Nat.lt_or_ge k perm.ScopePermissions.length with h | h
    · exact h
    · rw [List.getElem?_eq_none h] at hk; cases hk
  have hsplit : perm.ScopePermissions =
      perm.ScopePermissions.take k ++ e :: perm.ScopePermissions.drop (k + 1) := by
    have hget : perm.ScopePermissions[k] = e := by
      rw [List.getElem?_eq_getElem hklt] at hk
      exact Option.some.inj hk
    rw [← hget, ← List.drop_eq_getElem_cons hklt, List.take_append_drop]
  have hin : ∀ x ∈ perm.ScopePermissions.take k, (existing.lookup x.Name).isSome = true := by
    intro x hx
    obtain ⟨i, hi, rfl⟩ := List.getElem_of_mem hx
    have hik : i < k := by
      have := hi
      simp only [List.length_take] at this
      omega
    have hil : i < perm.ScopePermissions.length := by
      have := hi
      simp only [List.length_take] at this
      omega
    apply hfirst i _ hik
    rw [List.getElem_take, List.getElem?_eq_getElem hil]
  conv => lhs; rw [hsplit]
  rw [policiesLoop_append api realmName rmcid clientID existing rmPerms _ _ _ hin hupd]
  simp [policiesLoop, hbad]

/-- A concrete instance of C2: the declared scopes are `view`, `manage`; only
`view` exists, its generated permission is on the remote, and the update succeeds. -/
theorem C2_fail_fast_in_declared_order_witness :
    putKeycloakClientAdminPermissionPolicies
      (fixedApi [("view.permission.client.id-app", mkPermission "view.permission.client.id-app")]
        [("view", "x")] false false) clientAB "master" "id-app" [] =
      ([PermCall.GetClientID "realm-management" "master",
        PermCall.GetPermissions "master" "id-realm-management",
        PermCall.GetClientManagementPermissions "master" "id-app",
        PermCall.UpdatePermission "master" "id-realm-management"
          { mkPermission "view.permission.client.id-app" with Policies := some ["p1"] }],
       Outcome.err (GoError.New "scope manage not found in permissions")) :=
  (C2_fail_fast_in_declared_order
    (fixedApi [("view.permission.client.id-app", mkPermission "view.permission.client.id-app")]
      [("view", "x")] false false) clientAB "master" "id-app" [] "id-realm-management"
    [("view.permission.client.id-app", mkPermission "view.permission.client.id-app")]
    [("view", "x")]
    { ScopePermissions :=
        [{ Name := "view", Policies := ["p1"] }, { Name := "manage", Policies := ["p2"] }] }
    1 { Name := "manage", Policies := ["p2"] }
    ⟨rfl, rfl, _, rfl, rfl⟩ rfl rfl (by decide)
    (by
      intro i x hi hx
      have hi0 : i = 0 := by omega
      subst hi0
      simp at hx
      subst hx
      decide)
    (by intro j p _; rfl)).1

/-- C7 (orphan permission skip).  When the three look-ups succeed, a declared
entry whose name is in the existing scope-permission set but whose generated
name is not a key of the realm-management permission map contributes nothing:
the step issues the same calls and returns the same value as for the declared
list without that entry.  If every declared entry is of that sort the step
succeeds having issued the three look-ups and no `UpdatePermission` call. -/
theorem C7_orphan_permission_skip (api : KeycloakApiClient) (kc : KeycloakClient)
    (realmName clientID : String) (tr : List PermCall) (rmcid : String)
    (rmPerms : List (String × PermissionRepresentation)) (existing : List (String × String))
    (hl : LookupsSucceed api realmName clientID tr rmcid rmPerms existing) :
    (∀ (pre post : List ScopePermissions) (e : ScopePermissions),
      kc.Spec.Permission = some { ScopePermissions := pre ++ e :: post } →
      (existing.lookup e.Name).isSome = true →
      rmPerms.lookup (permissionName e.Name clientID) = none →
      putKeycloakClientAdminPermissionPolicies api kc realmName clientID tr =
        putKeycloakClientAdminPermissionPolicies api
          { kc with Spec := { kc.Spec with Permission := some { ScopePermissions := pre ++ post } } }
          realmName clientID tr) ∧
    (∀ perm : ClientPermission, kc.Spec.Permission = some perm →
      (∀ e ∈ perm.ScopePermissions, (existing.lookup e.Name).isSome = true ∧
        rmPerms.lookup (permissionName e.Name clientID) = none) →
      putKeycloakClientAdminPermissionPolicies api kc realmName clientID tr =
        (tr ++ lookupCalls realmName rmcid clientID, Outcome.ok) ∧
      ((putKeycloakClientAdminPermissionPolicies api kc realmName clientID tr).1.filter
        isUpdatePermission).length = (tr.filter isUpdatePermission).length) := by
  constructor
  · intro pre post e hp he hn
    rw [putPolicies_eq_loop api kc realmName clientID tr rmcid rmPerms existing _ hl hp,
      putPolicies_eq_loop api _ realmName clientID tr rmcid rmPerms existing
        { ScopePermissions := pre ++ post } hl rfl]
    exact policiesLoop_remove_orphan api realmName rmcid clientID existing rmPerms e post he hn pre _
  · intro perm hp hall
    have h := putPolicies_eq_loop api kc realmName clientID tr rmcid rmPerms existing perm hl hp
    rw [policiesLoop_all_orphans api realmName rmcid clientID existing rmPerms _ hall] at h
    refine ⟨h, ?_⟩
    rw [h]
    simp [lookupCalls, isUpdatePermission]

/-- A concrete instance of C7: both declared scopes exist, the remote holds no
generated permission object, and the step succeeds with the look-ups only. -/
theorem C7_orphan_permission_skip_witness :
    putKeycloakClientAdminPermissionPolicies
      (fixedApi [] [("view", "x"), ("manage", "y")] false false) clientAB "master" "id-app" [] =
    ([PermCall.GetClientID "realm-management" "master",
      PermCall.GetPermissions "master" "id-realm-management",
      PermCall.GetClientManagementPermissions "master" "id-app"], Outcome.ok) :=
  ((C7_orphan_permission_skip (fixedApi [] [("view", "x"), ("manage", "y")] false false) clientAB
    "master" "id-app" [] "id-realm-management" [] [("view", "x"), ("manage", "y")]
    ⟨rfl, rfl, _, rfl, rfl⟩).2
    { ScopePermissions :=
        [{ Name := "view", Policies := ["p1"] }, { Name := "manage", Policies := ["p2"] }] }
    rfl (by decide)).1

/-- C1, refuted as stated: with declared scopes `view`, `manage`, where `view`
is in the existing scope-permission set and `manage` is not, all three look-ups
succeeding, the step does issue an `UpdatePermission` call (for `view`) before
it fails on `manage`. -/
theorem C1_all_or_nothing_counterexample :
    LookupsSucceed
      (fixedApi [("view.permission.client.id-app", mkPermission "view.permission.client.id-app")]
        [("view", "x")] false false) "master" "id-app" [] "id-realm-management"
      [("view.permission.client.id-app", mkPermission "view.permission.client.id-app")]
      [("view", "x")] ∧
    ([("view", "x")].lookup "view").isSome = true ∧
    ([("view", "x")].lookup "manage") = none ∧
    ¬ (((putKeycloakClientAdminPermissionPolicies
      (fixedApi [("view.permission.client.id-app", mkPermission "view.permission.client.id-app")]
        [("view", "x")] false false) clientAB "master" "id-app" []).1.filter
          isUpdatePermission).length = 0) :=
  ⟨⟨rfl, rfl, _, rfl, rfl⟩, by decide, by decide, by decide⟩

/-- C1, amended.  For a declared list `[A, B]` with `A` in the existing
scope-permission set and `B` not, all three look-ups succeeding: no call is
issued for `B`; if the generated name of `A` is not a key of the
realm-management permission map the step issues no `UpdatePermission` call and
returns the error naming `B`; if it is a key, the step issues exactly one
`UpdatePermission` call, for that object with the policies of `A`, and returns
the error naming `B` when that call succeeds and the wrapped update error when
it fails. -/
theorem C1_all_or_nothing_amended (api : KeycloakApiClient) (kc : KeycloakClient)
    (realmName clientID : String) (tr : List PermCall) (rmcid : String)
    (rmPerms : List (String × PermissionRepresentation)) (existing : List (String × String))
    (A B : ScopePermissions)
    (hl : LookupsSucceed api realmName clientID tr rmcid rmPerms existing)
    (hp : kc.Spec.Permission = some { ScopePermissions := [A, B] })
    (hA : (existing.lookup A.Name).isSome = true)
    (hB : existing.lookup B.Name = none) :
    (rmPerms.lookup (permissionName A.Name clientID) = none →
      putKeycloakClientAdminPermissionPolicies api kc realmName clientID tr =
        (tr ++ lookupCalls realmName rmcid clientID,
         Outcome.err (GoError.New ("scope " ++ B.Name ++ " not found in permissions")))) ∧
    (∀ p, rmPerms.lookup (permissionName A.Name clientID) = some p →
      (api.UpdatePermission (tr ++ lookupCalls realmName rmcid clientID) realmName rmcid
          { p with Policies := some A.Policies } = none →
        putKeycloakClientAdminPermissionPolicies api kc realmName clientID tr =
          (tr ++ lookupCalls realmName rmcid clientID ++
            [PermCall.UpdatePermission realmName rmcid { p with Policies := some A.Policies }],
           Outcome.err (GoError.New ("scope " ++ B.Name ++ " not found in permissions")))) ∧
      (∀ cause, api.UpdatePermission (tr ++ lookupCalls realmName rmcid clientID) realmName rmcid
          { p with Policies := some A.Policies } = some cause →
        putKeycloakClientAdminPermissionPolicies api kc realmName clientID tr =
          (tr ++ lookupCalls realmName rmcid clientID ++
            [PermCall.UpdatePermission realmName rmcid { p with Policies := some A.Policies }],
           Outcome.err (GoError.Wrap
            ("failed to update permission " ++ permissionName A.Name clientID ++ ": ") cause)))) := by
  obtain ⟨v, hv⟩ := Option.isSome_iff_exists.mp hA
  rw [putPolicies_eq_loop api kc realmName clientID tr rmcid rmPerms existing _ hl hp]
  refine ⟨?_, ?_⟩
  · intro hn
    simp [policiesLoop, hv, hn, hB]
  · intro p hq
    constructor
    · intro hu
      simp [policiesLoop, hv, hq, hu, hB]
    · intro cause hu
      simp [policiesLoop, hv, hq, hu]

/-- A concrete instance of the amended C1, in the case without a generated
permission object: zero update calls and the error naming `manage`. -/
theorem C1_all_or_nothing_amended_witness :
    putKeycloakClientAdminPermissionPolicies
      (fixedApi [] [("view", "x")] false false) clientAB "master" "id-app" [] =
    ([PermCall.GetClientID "realm-management" "master",
      PermCall.GetPermissions "master" "id-realm-management",
      PermCall.GetClientManagementPermissions "master" "id-app"],
     Outcome.err (GoError.New "scope manage not found in permissions")) :=
  (C1_all_or_nothing_amended (fixedApi [] [("view", "x")] false false) clientAB
    "master" "id-app" [] "id-realm-management" [] [("view", "x")]
    { Name := "view", Policies := ["p1"] } { Name := "manage", Policies := ["p2"] }
    ⟨rfl, rfl, _, rfl, rfl⟩ rfl (by decide) (by decide)).1 rfl

/-- C9, refuted as stated: the client identifier is resolved, the flag is true
and a `Permission` block is declared, yet the flag push fails and `Serve`
stops after it, so none of `GetPermissions`, `GetClientManagementPermissions`,
`UpdatePermission` is issued. -/
theorem C9_unconditional_flag_push_counterexample :
    (fixedApi [] [("view", "x")] true false).GetClientID [] clientAB.Spec.ClientId "master" =
      Except.ok "id-app" ∧
    PutAdminFineGrainedPermissions.Serve (fixedApi [] [("view", "x")] true false)
      clientAB "master" [] =
      ([PermCall.GetClientID "app" "master",
        PermCall.UpdateClientManagementPermissions "master" "id-app"
          { Enabled := some true, Resource := none, ScopePermissions := none }],
       Outcome.err (GoError.Wrap "unable to put keycloak client admin fine grained permissions: "
        (GoError.Wrap "unable to update client management permissions: "
          (GoError.New "flag push refused")))) ∧
    ¬ (((PutAdminFineGrainedPermissions.Serve (fixedApi [] [("view", "x")] true false)
          clientAB "master" []).1.any isPolicySyncCall = true) ↔
        (clientAB.Spec.AdminFineGrainedPermissionsEnabled = true ∧
          clientAB.Spec.Permission ≠ none)) :=
  ⟨rfl, by decide, by decide⟩

/-- C9, amended.  When `GetClientID` succeeds, the calls issued by `Serve` are
`GetClientID`, then one `UpdateClientManagementPermissions` carrying
`Enabled = Spec.AdminFineGrainedPermissionsEnabled`, then a remainder that
contains no further flag push.  The remainder is the run of
`putKeycloakClientAdminPermissionPolicies` (which opens with
`GetClientID("realm-management")`) exactly when the flag push succeeded, the
flag is true and `Spec.Permission` is non-nil; otherwise the remainder is empty. -/
theorem C9_unconditional_flag_push_amended (api : KeycloakApiClient) (kc : KeycloakClient)
    (realmName : String) (tr : List PermCall) (clientID : String)
    (hid : api.GetClientID tr kc.Spec.ClientId realmName = Except.ok clientID) :
    ∃ rest : List PermCall,
      (PutAdminFineGrainedPermissions.Serve api kc realmName tr).1 =
        tr ++ [PermCall.GetClientID kc.Spec.ClientId realmName,
               PermCall.UpdateClientManagementPermissions realmName clientID
                { Enabled := some kc.Spec.AdminFineGrainedPermissionsEnabled,
                  Resource := none, ScopePermissions := none }] ++ rest ∧
      (∀ c ∈ rest, isFlagPush c = false) ∧
      ((api.UpdateClientManagementPermissions
            (tr ++ [PermCall.GetClientID kc.Spec.ClientId realmName]) realmName clientID
            { Enabled := some kc.Spec.AdminFineGrainedPermissionsEnabled,
              Resource := none, ScopePermissions := none } = none ∧
          kc.Spec.AdminFineGrainedPermissionsEnabled = true ∧ kc.Spec.Permission ≠ none) →
        (∃ more, rest = PermCall.GetClientID "realm-management" realmName :: more) ∧
        (putKeycloakClientAdminPermissionPolicies api kc realmName clientID
          (tr ++ [PermCall.GetClientID kc.Spec.ClientId realmName,
                  PermCall.UpdateClientManagementPermissions realmName clientID
                    { Enabled := some kc.Spec.AdminFineGrainedPermissionsEnabled,
                      Resource := none, ScopePermissions := none }])).1 =
          tr ++ [PermCall.GetClientID kc.Spec.ClientId realmName,
                 PermCall.UpdateClientManagementPermissions realmName clientID
                  { Enabled := some kc.Spec.AdminFineGrainedPermissionsEnabled,
                    Resource := none, ScopePermissions := none }] ++ rest) ∧
      (¬ (api.UpdateClientManagementPermissions
            (tr ++ [PermCall.GetClientID kc.Spec.ClientId realmName]) realmName clientID
            { Enabled := some kc.Spec.AdminFineGrainedPermissionsEnabled,
              Resource := none, ScopePermissions := none } = none ∧
          kc.Spec.AdminFineGrainedPermissionsEnabled = true ∧ kc.Spec.Permission ≠ none) →
        rest = []) := by
  have happ : tr ++ [PermCall.GetClientID kc.Spec.ClientId realmName] ++
      [PermCall.UpdateClientManagementPermissions realmName clientID
        { Enabled := some kc.Spec.AdminFineGrainedPermissionsEnabled,
          Resource := none, ScopePermissions := none }] =
      tr ++ [PermCall.GetClientID kc.Spec.ClientId realmName,
        PermCall.UpdateClientManagementPermissions realmName clientID
          { Enabled := some kc.Spec.AdminFineGrainedPermissionsEnabled,
            Resource := none, ScopePermissions := none }] := by simp
  cases hflag : api.UpdateClientManagementPermissions
      (tr ++ [PermCall.GetClientID kc.Spec.ClientId realmName]) realmName clientID
      { Enabled := some kc.Spec.AdminFineGrainedPermissionsEnabled,
        Resource := none, ScopePermissions := none } with
  | some e =>
    refine ⟨[], ?_, by simp, by simp, fun _ => rfl⟩
    simp only [PutAdminFineGrainedPermissions.Serve, hid,
      putKeycloakClientAdminFineGrainedPermissions, hflag]
    simp
  | none =>
    by_cases hc : kc.Spec.AdminFineGrainedPermissionsEnabled = true ∧ kc.Spec.Permission ≠ none
    · obtain ⟨more, h1, h2⟩ := putPolicies_trace api kc realmName clientID
        (tr ++ [PermCall.GetClientID kc.Spec.ClientId realmName,
          PermCall.UpdateClientManagementPermissions realmName clientID
            { Enabled := some kc.Spec.AdminFineGrainedPermissionsEnabled,
              Resource := none, ScopePermissions := none }])
      have hcond : (kc.Spec.AdminFineGrainedPermissionsEnabled
          && kc.Spec.Permission.isSome) = true := by
        obtain ⟨ha, hb⟩ := hc
        rw [ha]
        cases hperm : kc.Spec.Permission with
        | none => exact absurd hperm hb
        | some _ => rfl
      refine ⟨PermCall.GetClientID "realm-management" realmName :: more, ?_, ?_, ?_, ?_⟩
      · simp only [PutAdminFineGrainedPermissions.Serve, hid,
          putKeycloakClientAdminFineGrainedPermissions, hflag, hcond, happ, if_true]
        rw [← h1]
        cases hres : putKeycloakClientAdminPermissionPolicies api kc realmName clientID
          (tr ++ [PermCall.GetClientID kc.Spec.ClientId realmName,
            PermCall.UpdateClientManagementPermissions realmName clientID
              { Enabled := some kc.Spec.AdminFineGrainedPermissionsEnabled,
                Resource := none, ScopePermissions := none }]) with
        | mk t o => cases o <;> rfl
      · intro c hcm
        rcases List.mem_cons.mp hcm with rfl | hcm
        · rfl
        · exact h2 c hcm
      · intro _
        exact ⟨⟨more, rfl⟩, h1⟩
      · intro hneg
        exact absurd ⟨rfl, hc⟩ hneg
    · have hcond : (kc.Spec.AdminFineGrainedPermissionsEnabled
          && kc.Spec.Permission.isSome) = false := by
        cases hb : kc.Spec.AdminFineGrainedPermissionsEnabled with
        | false => rfl
        | true =>
          cases hperm : kc.Spec.Permission with
          | none => rfl
          | some _ => exact absurd ⟨hb, by simp [hperm]⟩ hc
      refine ⟨[], ?_, by simp, ?_, fun _ => rfl⟩
      · simp only [PutAdminFineGrainedPermissions.Serve, hid,
          putKeycloakClientAdminFineGrainedPermissions, hflag, hcond, happ]
        simp
      · intro h
        exact absurd h.2 hc

/-- A concrete instance of the amended C9: the flag is false, the flag push is
still issued, carrying `Enabled = false`, and nothing follows it. -/
theorem C9_unconditional_flag_push_amended_witness :
    (PutAdminFineGrainedPermissions.Serve (fixedApi [] [] false false)
      { Spec := { ClientId := "app", AdminFineGrainedPermissionsEnabled := false,
                  Permission := none } } "master" []).1 =
      [PermCall.GetClientID "app" "master",
        PermCall.UpdateClientManagementPermissions "master" "id-app"
          { Enabled := some false, Resource := none, ScopePermissions := none }] := by
  obtain ⟨rest, h1, _, _, h4⟩ := C9_unconditional_flag_push_amended (fixedApi [] [] false false)
    { Spec := { ClientId := "app", AdminFineGrainedPermissionsEnabled := false,
                Permission := none } } "master" [] "id-app" rfl
  rw [h1, h4 (by decide)]
  rfl

/-! ### Claims on the service-account step -/

/-- C3 (public/service-account conflict).  For a client with `Spec.Public = true`
and an enabled service account, `ServiceAccount.Serve` returns the validation
error `service account can not be configured with public client` and records
no event: no adapter call (`SyncServiceAccountRoles` is not called) and no
hand-over to the next chain element. -/
theorem C3_public_service_account_conflict (el : ServiceAccount)
    (keycloakClient : v1alpha1.KeycloakClient) (serviceAccount : v1alpha1.ServiceAccount)
    (tr : List ChainCall)
    (hpub : keycloakClient.Spec.Public = true)
    (hsa : keycloakClient.Spec.ServiceAccount = some serviceAccount)
    (hen : serviceAccount.Enabled = true) :
    ServiceAccount.Serve el keycloakClient tr =
      (tr, some (GoError.New "service account can not be configured with public client")) ∧
    ((ServiceAccount.Serve el keycloakClient tr).1.filter isAdapterCall).length =
      (tr.filter isAdapterCall).length ∧
    ((ServiceAccount.Serve el keycloakClient tr).1.filter isNextServe).length =
      (tr.filter isNextServe).length := by
  have h : ServiceAccount.Serve el keycloakClient tr =
      (tr, some (GoError.New "service account can not be configured with public client")) := by
    simp [ServiceAccount.Serve, hsa, hen, hpub]
  rw [h]
  exact ⟨rfl, rfl, rfl⟩

/-- A concrete instance of C3. -/
theorem C3_public_service_account_conflict_witness :
    ServiceAccount.Serve sampleServiceAccount publicClientWithAccount [] =
      ([], some (GoError.New "service account can not be configured with public client")) :=
  (C3_public_service_account_conflict sampleServiceAccount publicClientWithAccount
    { Enabled := true, RealmRoles := ["admin"],
      ClientRoles := [{ ClientID := "c1", Roles := ["r1"] }] } [] rfl rfl rfl).1

/-! ### Lemmas on the realm-component controller -/

theorem isLookup_not_write (c : CtlCall) (h : isLookup c = true) :
    isComponentWrite c = false := by
  cases c <;> simp_all [isLookup, isComponentWrite]

theorem isLookup_not_backoff (c : CtlCall) (h : isLookup c = true) :
    isSetFailureCount c = false := by
  cases c <;> simp_all [isLookup, isSetFailureCount]

theorem getParentID_trace (r : Reconcile) (component : KeycloakRealmComponent)
    (kcRealmName : String) (kClient : KClient) (tr : List CtlCall) :
    ∃ ext : List CtlCall,
      (r.getParentID component kcRealmName kClient tr).1 = tr ++ ext ∧
      ∀ c ∈ ext, isLookup c = true := by
  unfold Reconcile.getParentID
  cases component.Spec.ParentRef with
  | none => exact ⟨[], by simp, by simp⟩
  | some parentRef =>
    simp only
    split
    · cases r.client.GetRealm tr
          { Namespace := component.ObjectMeta.Namespace, Name := parentRef.Name } with
      | error e => exact ⟨[_], rfl, by simp [isLookup]⟩
      | ok parentRealm =>
        simp only
        cases kClient.GetRealm _ parentRealm.Spec.RealmName with
        | error e => exact ⟨_, List.append_assoc _ _ _, by simp [isLookup]⟩
        | ok kc =>
          simp only
          cases kc.ID with
          | none => exact ⟨_, List.append_assoc _ _ _, by simp [isLookup]⟩
          | some id =>
            simp only
            split
            · exact ⟨_, List.append_assoc _ _ _, by simp [isLookup]⟩
            · exact ⟨_, List.append_assoc _ _ _, by simp [isLookup]⟩
    · split
      · cases r.client.GetComponent tr
            { Namespace := component.ObjectMeta.Namespace, Name := parentRef.Name } with
        | error e => exact ⟨[_], rfl, by simp [isLookup]⟩
        | ok parentComponent =>
          simp only
          cases kClient.GetComponent _ kcRealmName parentComponent.Spec.Name with
          | error e => exact ⟨_, List.append_assoc _ _ _, by simp [isLookup]⟩
          | ok kc => exact ⟨_, List.append_assoc _ _ _, by simp [isLookup]⟩
      · exact ⟨[], by simp, by simp⟩

theorem createKeycloakComponent_of_parent (r : Reconcile) (component : KeycloakRealmComponent)
    (kcRealmName : String) (kClient : KClient) (tr tr1 : List CtlCall) (parentID : String)
    (h : r.getParentID component kcRealmName kClient tr = (tr1, Except.ok parentID)) :
    r.createKeycloakComponent component kcRealmName kClient tr =
      (tr1, Except.ok (specRepresentation component parentID)) := by
  simp only [Reconcile.createKeycloakComponent, h, specRepresentation]
  by_cases hp : parentID = ""
  · simp [hp]
  · simp [hp]

theorem filter_writes_of_ext (tr ext : List CtlCall)
    (h : ∀ c ∈ ext, isComponentWrite c = false) :
    (tr ++ ext).filter isComponentWrite = tr.filter isComponentWrite := by
  rw [List.filter_append]
  have : ext.filter isComponentWrite = [] := by
    rw [List.filter_eq_nil_iff]
    intro c hc
    simp [h c hc]
  rw [this, List.append_nil]

theorem getParentID_writes (r : Reconcile) (component : KeycloakRealmComponent)
    (kcRealmName : String) (kClient : KClient) (tr tr1 : List CtlCall)
    (res : Except GoError String)
    (h : r.getParentID component kcRealmName kClient tr = (tr1, res)) :
    (∃ ext, tr1 = tr ++ ext) ∧ tr1.filter isComponentWrite = tr.filter isComponentWrite := by
  obtain ⟨ext, h1, h2⟩ := getParentID_trace r component kcRealmName kClient tr
  rw [h] at h1
  simp only at h1
  exact ⟨⟨ext, h1⟩, by
    rw [h1]
    exact filter_writes_of_ext tr ext (fun c hc => isLookup_not_write c (h2 c hc))⟩

theorem tryReconcile_not_found (r : Reconcile) (component : KeycloakRealmComponent)
    (realm : KeycloakRealm) (kClient : KClient) (tr tr1 : List CtlCall) (parentID : String)
    (err : GoError)
    (hpid : r.getParentID component realm.Spec.RealmName kClient tr = (tr1, Except.ok parentID))
    (hget : kClient.GetComponent tr1 realm.Spec.RealmName component.Spec.Name = Except.error err)
    (hnf : r.IsErrNotFound err = true) :
    r.tryReconcile component realm kClient tr =
      (tr1 ++ [CtlCall.GetComponent realm.Spec.RealmName component.Spec.Name,
               CtlCall.CreateComponent realm.Spec.RealmName (specRepresentation component parentID)],
       (kClient.CreateComponent
          (tr1 ++ [CtlCall.GetComponent realm.Spec.RealmName component.Spec.Name])
          realm.Spec.RealmName (specRepresentation component parentID)).map
        (GoError.Wrap "unable to create component ")) := by
  simp only [Reconcile.tryReconcile,
    createKeycloakComponent_of_parent r component _ kClient tr tr1 parentID hpid, hget, hnf]
  cases kClient.CreateComponent _ realm.Spec.RealmName (specRepresentation component parentID) <;>
    simp

theorem tryReconcile_found (r : Reconcile) (component : KeycloakRealmComponent)
    (realm : KeycloakRealm) (kClient : KClient) (tr tr1 : List CtlCall) (parentID : String)
    (cmp : Component)
    (hpid : r.getParentID component realm.Spec.RealmName kClient tr = (tr1, Except.ok parentID))
    (hget : kClient.GetComponent tr1 realm.Spec.RealmName component.Spec.Name = Except.ok cmp) :
    r.tryReconcile component realm kClient tr =
      (tr1 ++ [CtlCall.GetComponent realm.Spec.RealmName component.Spec.Name,
               CtlCall.UpdateComponent realm.Spec.RealmName
                { specRepresentation component parentID with ID := cmp.ID }],
       (kClient.UpdateComponent
          (tr1 ++ [CtlCall.GetComponent realm.Spec.RealmName component.Spec.Name])
          realm.Spec.RealmName { specRepresentation component parentID with ID := cmp.ID }).map
        (GoError.Wrap "unable to update component: ")) := by
  simp only [Reconcile.tryReconcile,
    createKeycloakComponent_of_parent r component _ kClient tr tr1 parentID hpid, hget]
  cases kClient.UpdateComponent _ realm.Spec.RealmName
    { specRepresentation component parentID with ID := cmp.ID } <;> simp

theorem tryReconcile_unexpected (r : Reconcile) (component : KeycloakRealmComponent)
    (realm : KeycloakRealm) (kClient : KClient) (tr tr1 : List CtlCall) (parentID : String)
    (err : GoError)
    (hpid : r.getParentID component realm.Spec.RealmName kClient tr = (tr1, Except.ok parentID))
    (hget : kClient.GetComponent tr1 realm.Spec.RealmName component.Spec.Name = Except.error err)
    (hnf : r.IsErrNotFound err = false) :
    r.tryReconcile component realm kClient tr =
      (tr1 ++ [CtlCall.GetComponent realm.Spec.RealmName component.Spec.Name],
       some (GoError.Wrap "unable to get component, unexpected error: " err)) := by
  simp [Reconcile.tryReconcile,
    createKeycloakComponent_of_parent r component _ kClient tr tr1 parentID hpid, hget, hnf]

theorem cycles_after_create (r : Reconcile) (component : KeycloakRealmComponent)
    (realm : KeycloakRealm) (kClient : KClient) (base : List CtlCall) (id : String)
    (hstore : ∀ h, ∃ cmp, kClient.GetComponent (base ++ h) realm.Spec.RealmName
      component.Spec.Name = Except.ok cmp ∧ cmp.ID = id)
    (hpar : ∀ h, ∃ t p,
      r.getParentID component realm.Spec.RealmName kClient h = (t, Except.ok p)) :
    ∀ (n : Nat) (h : List CtlCall), ∃ ups : List Component,
      ups.length = n ∧ (∀ u ∈ ups, u.ID = id ∧ u.Name = component.Spec.Name) ∧
      (tryReconcileCycles r component realm kClient n (base ++ h)).filter isComponentWrite =
        (base ++ h).filter isComponentWrite ++
          ups.map (CtlCall.UpdateComponent realm.Spec.RealmName) := by
  intro n
  induction n with
  | zero => intro h; exact ⟨[], rfl, by simp, by simp [tryReconcileCycles]⟩
  | succ n ih =>
    intro h
    obtain ⟨t, p, hp⟩ := hpar (base ++ h)
    obtain ⟨⟨ext, hext⟩, hfilt⟩ := getParentID_writes r component _ kClient _ _ _ hp
    obtain ⟨cmp, hcmp, hid⟩ := hstore (h ++ ext)
    rw [← List.append_assoc, ← hext] at hcmp
    have hrun := tryReconcile_found r component realm kClient (base ++ h) t p cmp hp hcmp
    have ht : t ++ [CtlCall.GetComponent realm.Spec.RealmName component.Spec.Name,
        CtlCall.UpdateComponent realm.Spec.RealmName
          { specRepresentation component p with ID := cmp.ID }] =
        base ++ (h ++ ext ++ [CtlCall.GetComponent realm.Spec.RealmName component.Spec.Name,
          CtlCall.UpdateComponent realm.Spec.RealmName
            { specRepresentation component p with ID := cmp.ID }]) := by
      rw [hext]; simp [List.append_assoc]
    obtain ⟨ups, hlen, hall, hw⟩ := ih (h ++ ext ++
      [CtlCall.GetComponent realm.Spec.RealmName component.Spec.Name,
        CtlCall.UpdateComponent realm.Spec.RealmName
          { specRepresentation component p with ID := cmp.ID }])
    refine ⟨{ specRepresentation component p with ID := cmp.ID } :: ups, by simp [hlen], ?_, ?_⟩
    · intro u hu
      rcases List.mem_cons.mp hu with rfl | hu
      · exact ⟨hid, rfl⟩
      · exact hall u hu
    · simp only [tryReconcileCycles, hrun]
      rw [ht, hw, ← ht, List.filter_append, hfilt]
      simp [isComponentWrite, List.append_assoc]

theorem tryReconcile_trace (r : Reconcile) (component : KeycloakRealmComponent)
    (realm : KeycloakRealm) (kClient : KClient) (tr : List CtlCall) :
    ∃ ext : List CtlCall,
      (r.tryReconcile component realm kClient tr).1 = tr ++ ext ∧
      ∀ c ∈ ext, isSetFailureCount c = false := by
  obtain ⟨ext, h1, h2⟩ := getParentID_trace r component realm.Spec.RealmName kClient tr
  have h3 : ∀ c ∈ ext, isSetFailureCount c = false :=
    fun c hc => isLookup_not_backoff c (h2 c hc)
  cases hres : r.getParentID component realm.Spec.RealmName kClient tr with
  | mk t res =>
    rw [hres] at h1
    simp only at h1
    subst h1
    cases res with
    | error e =>
      refine ⟨ext, ?_, h3⟩
      simp [Reconcile.tryReconcile, Reconcile.createKeycloakComponent, hres]
    | ok pid =>
      have hc := createKeycloakComponent_of_parent r component _ kClient tr _ pid hres
      simp only [Reconcile.tryReconcile, hc]
      cases kClient.GetComponent (tr ++ ext) realm.Spec.RealmName component.Spec.Name with
      | error e =>
        simp only
        cases r.IsErrNotFound e with
        | false =>
          refine ⟨ext ++ [CtlCall.GetComponent realm.Spec.RealmName component.Spec.Name], ?_, ?_⟩
          · simp [List.append_assoc]
          · intro c hcm
            rcases List.mem_append.mp hcm with hcm | hcm
            · exact h3 c hcm
            · simp at hcm; subst hcm; rfl
        | true =>
          refine ⟨ext ++ [CtlCall.GetComponent realm.Spec.RealmName component.Spec.Name,
            CtlCall.CreateComponent realm.Spec.RealmName (specRepresentation component pid)], ?_, ?_⟩
          · cases kClient.CreateComponent _ realm.Spec.RealmName
              (specRepresentation component pid) <;> simp [List.append_assoc]
          · intro c hcm
            rcases List.mem_append.mp hcm with hcm | hcm
            · exact h3 c hcm
            · simp at hcm
              rcases hcm with rfl | rfl <;> rfl
      | ok cmp =>
        refine ⟨ext ++ [CtlCall.GetComponent realm.Spec.RealmName component.Spec.Name,
          CtlCall.UpdateComponent realm.Spec.RealmName
            { specRepresentation component pid with ID := cmp.ID }], ?_, ?_⟩
        · simp only
          cases kClient.UpdateComponent _ realm.Spec.RealmName
            { specRepresentation component pid with ID := cmp.ID } <;> simp [List.append_assoc]
        · intro c hcm
          rcases List.mem_append.mp hcm with hcm | hcm
          · exact h3 c hcm
          · simp at hcm
            rcases hcm with rfl | rfl <;> rfl

theorem setComponentOwnerReference_trace (r : Reconcile) (component : KeycloakRealmComponent)
    (tr : List CtlCall) :
    ∃ ext : List CtlCall,
      (r.setComponentOwnerReference component tr).1 = tr ++ ext ∧
      ∀ c ∈ ext, isSetFailureCount c = false := by
  unfold Reconcile.setComponentOwnerReference
  cases component.Spec.ParentRef with
  | none => exact ⟨[], by simp, by simp⟩
  | some parentRef =>
    simp only
    split
    · exact ⟨[], by simp, by simp⟩
    · split
      · exact ⟨[], by simp, by simp⟩
      · cases r.client.GetComponent tr
            { Namespace := component.ObjectMeta.Namespace, Name := parentRef.Name } with
        | error e => exact ⟨[_], rfl, by simp [isSetFailureCount]⟩
        | ok parentComponent =>
          simp only
          cases r.GVKForObject parentComponent with
          | error e => exact ⟨[_], rfl, by simp [isSetFailureCount]⟩
          | ok gvk =>
            simp only
            cases r.client.Update _ _ with
            | some e => exact ⟨_, List.append_assoc _ _ _, by simp [isSetFailureCount]⟩
            | none => exact ⟨_, List.append_assoc _ _ _, by simp [isSetFailureCount]⟩

theorem filter_backoff_of_ext (tr ext : List CtlCall)
    (h : ∀ c ∈ ext, isSetFailureCount c = false) :
    (tr ++ ext).filter isSetFailureCount = tr.filter isSetFailureCount := by
  rw [List.filter_append]
  have : ext.filter isSetFailureCount = [] := by
    rw [List.filter_eq_nil_iff]
    intro c hc
    simp [h c hc]
  rw [this, List.append_nil]

/-! ### Claims on the realm-component controller -/

/-- C5 (no blind create-on-error).  When parent resolution has succeeded and the
`GetComponent(realm, Spec.Name)` call of `tryReconcile` fails with an error
that is not a not-found error, `tryReconcile` returns an error wrapping it,
having issued that look-up last and neither `CreateComponent` nor `UpdateComponent`. -/
theorem C5_no_blind_create_on_error (r : Reconcile) (component : KeycloakRealmComponent)
    (realm : KeycloakRealm) (kClient : KClient) (tr tr1 : List CtlCall) (parentID : String)
    (err : GoError)
    (hpid : r.getParentID component realm.Spec.RealmName kClient tr = (tr1, Except.ok parentID))
    (hget : kClient.GetComponent tr1 realm.Spec.RealmName component.Spec.Name = Except.error err)
    (hnf : r.IsErrNotFound err = false) :
    r.tryReconcile component realm kClient tr =
      (tr1 ++ [CtlCall.GetComponent realm.Spec.RealmName component.Spec.Name],
       some (GoError.Wrap "unable to get component, unexpected error: " err)) ∧
    (r.tryReconcile component realm kClient tr).1.filter isComponentWrite =
      tr.filter isComponentWrite := by
  have h := tryReconcile_unexpected r component realm kClient tr tr1 parentID err hpid hget hnf
  refine ⟨h, ?_⟩
  rw [h]
  simp only [List.filter_append]
  rw [(getParentID_writes r component _ kClient tr tr1 _ hpid).2]
  simp [isComponentWrite]

/-- A concrete instance of C5: the remote answers `connection refused`. -/
theorem C5_no_blind_create_on_error_witness :
    (sampleReconcile (sampleComponent "ldap" none []) (storeKClient true "")).tryReconcile
      (sampleComponent "ldap" none []) sampleRealm (storeKClient true "") [] =
    ([CtlCall.GetComponent "master" "ldap"],
     some (GoError.Wrap "unable to get component, unexpected error: "
      (GoError.New "connection refused"))) :=
  (C5_no_blind_create_on_error
    (sampleReconcile (sampleComponent "ldap" none []) (storeKClient true ""))
    (sampleComponent "ldap" none []) sampleRealm (storeKClient true "") [] [] ""
    (GoError.New "connection refused") rfl rfl (by decide)).1

/-- C4 (create-then-update upsert).  When parent resolution has succeeded,
`tryReconcile` issues exactly one mutating call, decided by
`GetComponent(realm, Spec.Name)`: on not-found, one `CreateComponent` with the
spec-derived representation (name, config, provider id and type, resolved
parent id) and no update; on found, one `UpdateComponent` carrying the
identifier of the found component and no create.  Consequently, if the first
cycle creates successfully, the component is found with identifier `id` at
every later moment, and parent resolution keeps succeeding, then after `n + 1`
consecutive cycles the mutating calls issued are the one create followed by
`n` updates, each carrying `id`. -/
theorem C4_create_then_update_upsert (r : Reconcile) (component : KeycloakRealmComponent)
    (realm : KeycloakRealm) (kClient : KClient) (tr tr1 : List CtlCall) (parentID : String)
    (hpid : r.getParentID component realm.Spec.RealmName kClient tr =
      (tr1, Except.ok parentID)) :
    (∀ err, kClient.GetComponent tr1 realm.Spec.RealmName component.Spec.Name =
        Except.error err → r.IsErrNotFound err = true →
      r.tryReconcile component realm kClient tr =
        (tr1 ++ [CtlCall.GetComponent realm.Spec.RealmName component.Spec.Name,
                 CtlCall.CreateComponent realm.Spec.RealmName
                  (specRepresentation component parentID)],
         (kClient.CreateComponent
            (tr1 ++ [CtlCall.GetComponent realm.Spec.RealmName component.Spec.Name])
            realm.Spec.RealmName (specRepresentation component parentID)).map
          (GoError.Wrap "unable to create component ")) ∧
      (r.tryReconcile component realm kClient tr).1.filter isComponentWrite =
        tr.filter isComponentWrite ++
          [CtlCall.CreateComponent realm.Spec.RealmName (specRepresentation component parentID)]) ∧
    (∀ cmp, kClient.GetComponent tr1 realm.Spec.RealmName component.Spec.Name =
        Except.ok cmp →
      r.tryReconcile component realm kClient tr =
        (tr1 ++ [CtlCall.GetComponent realm.Spec.RealmName component.Spec.Name,
                 CtlCall.UpdateComponent realm.Spec.RealmName
                  { specRepresentation component parentID with ID := cmp.ID }],
         (kClient.UpdateComponent
            (tr1 ++ [CtlCall.GetComponent realm.Spec.RealmName component.Spec.Name])
            realm.Spec.RealmName
            { specRepresentation component parentID with ID := cmp.ID }).map
          (GoError.Wrap "unable to update component: ")) ∧
      (r.tryReconcile component realm kClient tr).1.filter isComponentWrite =
        tr.filter isComponentWrite ++
          [CtlCall.UpdateComponent realm.Spec.RealmName
            { specRepresentation component parentID with ID := cmp.ID }]) ∧
    (∀ err id, kClient.GetComponent tr1 realm.Spec.RealmName component.Spec.Name =
        Except.error err → r.IsErrNotFound err = true →
      kClient.CreateComponent
        (tr1 ++ [CtlCall.GetComponent realm.Spec.RealmName component.Spec.Name])
        realm.Spec.RealmName (specRepresentation component parentID) = none →
      (∀ h, ∃ cmp, kClient.GetComponent
          ((r.tryReconcile component realm kClient tr).1 ++ h) realm.Spec.RealmName
          component.Spec.Name = Except.ok cmp ∧ cmp.ID = id) →
      (∀ h, ∃ t p, r.getParentID component realm.Spec.RealmName kClient h =
        (t, Except.ok p)) →
      ∀ n : Nat, ∃ ups : List Component,
        ups.length = n ∧ (∀ u ∈ ups, u.ID = id ∧ u.Name = component.Spec.Name) ∧
        (tryReconcileCycles r component realm kClient (n + 1) tr).filter isComponentWrite =
          tr.filter isComponentWrite ++
            CtlCall.CreateComponent realm.Spec.RealmName (specRepresentation component parentID) ::
              ups.map (CtlCall.UpdateComponent realm.Spec.RealmName)) := by
  have hw := (getParentID_writes r component _ kClient tr tr1 _ hpid).2
  have hcreate : ∀ err, kClient.GetComponent tr1 realm.Spec.RealmName component.Spec.Name =
        Except.error err → r.IsErrNotFound err = true →
      (r.tryReconcile component realm kClient tr).1.filter isComponentWrite =
        tr.filter isComponentWrite ++
          [CtlCall.CreateComponent realm.Spec.RealmName
            (specRepresentation component parentID)] := by
    intro err hget hnf
    rw [tryReconcile_not_found r component realm kClient tr tr1 parentID err hpid hget hnf]
    simp only [List.filter_append]
    rw [hw]
    simp [isComponentWrite]
  refine ⟨?_, ?_, ?_⟩
  · intro err hget hnf
    exact ⟨tryReconcile_not_found r component realm kClient tr tr1 parentID err hpid hget hnf,
      hcreate err hget hnf⟩
  · intro cmp hget
    have h := tryReconcile_found r component realm kClient tr tr1 parentID cmp hpid hget
    refine ⟨h, ?_⟩
    rw [h]
    simp only [List.filter_append]
    rw [hw]
    simp [isComponentWrite]
  · intro err id hget hnf _ hstore hpar n
    obtain ⟨ups, hlen, hall, hcyc⟩ := cycles_after_create r component realm kClient
      (r.tryReconcile component realm kClient tr).1 id hstore hpar n []
    refine ⟨ups, hlen, hall, ?_⟩
    simp only [List.append_nil] at hcyc
    simp only [tryReconcileCycles]
    rw [hcyc, hcreate err hget hnf]
    simp [List.append_assoc]

/-- A concrete instance of C4 over the component store: the first cycle creates
the component `ldap`, the next two cycles update it under the identifier
`id-ldap`, so three cycles issue three mutating calls, one of them a create. -/
theorem C4_create_then_update_upsert_witness :
    (tryReconcileCycles (sampleReconcile (sampleComponent "ldap" none []) (storeKClient false ""))
      (sampleComponent "ldap" none []) sampleRealm (storeKClient false "") 3 []).filter
        isComponentWrite =
    [CtlCall.CreateComponent "master" (specRepresentation (sampleComponent "ldap" none []) ""),
     CtlCall.UpdateComponent "master"
      { specRepresentation (sampleComponent "ldap" none []) "" with ID := "id-ldap" },
     CtlCall.UpdateComponent "master"
      { specRepresentation (sampleComponent "ldap" none []) "" with ID := "id-ldap" }] ∧
    ((tryReconcileCycles (sampleReconcile (sampleComponent "ldap" none []) (storeKClient false ""))
      (sampleComponent "ldap" none []) sampleRealm (storeKClient false "") 3 []).filter
        isComponentWrite).length = 3 := by
  refine ⟨by decide, ?_⟩
  obtain ⟨ups, hlen, _, h⟩ := (C4_create_then_update_upsert
      (sampleReconcile (sampleComponent "ldap" none []) (storeKClient false ""))
      (sampleComponent "ldap" none []) sampleRealm (storeKClient false "") [] [] "" rfl).2.2
      (GoError.New "not found") "id-ldap" rfl (by decide) rfl
      (by
        intro h
        exact ⟨{ specRepresentation (sampleComponent "ldap" none []) "" with ID := "id-ldap" },
          rfl, rfl⟩)
      (by intro h; exact ⟨h, "", rfl⟩) 2
  rw [h]
  simp [hlen]

/-- C10 (component-kind parent resolution does not validate the identifier).
For a parent reference of kind `KeycloakRealmComponent` whose local look-up and
remote `GetComponent` both succeed, `getParentID` returns exactly the remote
parent identifier with no error, empty or not; when it is empty,
`createKeycloakComponent` leaves `ParentID` unset and builds the representation
it builds for the same component without a parent reference.  The realm-kind
path, in contrast, returns an error when the remote realm identifier is nil or empty. -/
theorem C10_component_parent_id_not_validated (r : Reconcile)
    (component : KeycloakRealmComponent) (kcRealmName : String) (kClient : KClient)
    (tr : List CtlCall) (parentRef : ParentRef) :
    (∀ (parentComponent : KeycloakRealmComponent) (kcParentComponent : Component),
      component.Spec.ParentRef = some parentRef →
      parentRef.Kind = KeycloakRealmComponentKind →
      r.client.GetComponent tr
        { Name := parentRef.Name, Namespace := component.ObjectMeta.Namespace } =
        Except.ok parentComponent →
      kClient.GetComponent
        (tr ++ [CtlCall.ClientGetComponent
          { Name := parentRef.Name, Namespace := component.ObjectMeta.Namespace }])
        kcRealmName parentComponent.Spec.Name = Except.ok kcParentComponent →
      r.getParentID component kcRealmName kClient tr =
        (tr ++ [CtlCall.ClientGetComponent
            { Name := parentRef.Name, Namespace := component.ObjectMeta.Namespace },
          CtlCall.GetComponent kcRealmName parentComponent.Spec.Name],
         Except.ok kcParentComponent.ID) ∧
      (kcParentComponent.ID = "" →
        (r.createKeycloakComponent component kcRealmName kClient tr).2 =
          Except.ok (specRepresentation component "") ∧
        (r.createKeycloakComponent component kcRealmName kClient tr).2 =
          (r.createKeycloakComponent
            { component with Spec := { component.Spec with ParentRef := none } }
            kcRealmName kClient tr).2)) ∧
    (∀ (parentRealm : KeycloakRealm) (kcParentRealm : RealmRepresentation),
      component.Spec.ParentRef = some parentRef →
      parentRef.Kind = KeycloakRealmKind →
      r.client.GetRealm tr
        { Name := parentRef.Name, Namespace := component.ObjectMeta.Namespace } =
        Except.ok parentRealm →
      kClient.GetRealm
        (tr ++ [CtlCall.ClientGetRealm
          { Name := parentRef.Name, Namespace := component.ObjectMeta.Namespace }])
        parentRealm.Spec.RealmName = Except.ok kcParentRealm →
      (kcParentRealm.ID = none ∨ kcParentRealm.ID = some "") →
      (r.getParentID component kcRealmName kClient tr).2 =
        Except.error (GoError.New "kcRealmName id is empty")) := by
  constructor
  · intro parentComponent kcParentComponent href hkind hlocal hremote
    have hne : ¬ (KeycloakRealmComponentKind = KeycloakRealmKind) := by decide
    have hres : r.getParentID component kcRealmName kClient tr =
        (tr ++ [CtlCall.ClientGetComponent
            { Name := parentRef.Name, Namespace := component.ObjectMeta.Namespace },
          CtlCall.GetComponent kcRealmName parentComponent.Spec.Name],
         Except.ok kcParentComponent.ID) := by
      simp only [Reconcile.getParentID, href, hne, hkind, hlocal, hremote, if_true, if_false]
      simp
    refine ⟨hres, ?_⟩
    intro hempty
    rw [hempty] at hres
    rw [createKeycloakComponent_of_parent r component kcRealmName kClient tr _ "" hres]
    refine ⟨rfl, ?_⟩
    simp [Reconcile.createKeycloakComponent, Reconcile.getParentID, specRepresentation]
  · intro parentRealm kcParentRealm href hkind hlocal hremote hid
    rcases hid with hid | hid
    · simp [Reconcile.getParentID, href, hkind, hlocal, hremote, hid]
    · simp [Reconcile.getParentID, href, hkind, hlocal, hremote, hid]

/-- A concrete instance of C10: the remote parent component reports the empty
identifier, which is returned as it is. -/
theorem C10_component_parent_id_not_validated_witness :
    (sampleReconcile (sampleComponent "child" none []) (storeKClient false "")).getParentID
      (sampleComponent "child" (some { Kind := "KeycloakRealmComponent", Name := "parent" }) [])
      "master" (storeKClient false "") [] =
    ([CtlCall.ClientGetComponent { Name := "parent", Namespace := "ns" },
      CtlCall.GetComponent "master" "parent"], Except.ok "") :=
  ((C10_component_parent_id_not_validated
    (sampleReconcile (sampleComponent "child" none []) (storeKClient false ""))
    (sampleComponent "child" (some { Kind := "KeycloakRealmComponent", Name := "parent" }) [])
    "master" (storeKClient false "") []
    { Kind := "KeycloakRealmComponent", Name := "parent" }).1
    (sampleComponent "parent" none [])
    { ID := "", Name := "parent", Config := [], ProviderID := "ldap", ProviderType := "",
      ParentID := "" } rfl rfl rfl rfl).1

/-- C8 (ownership link set-once).  For a component whose parent reference has
kind `KeycloakRealmComponent` and whose owner references already contain one of
that kind, `setComponentOwnerReference` returns success, issues no call at all
(no `Update`, no `Get` of the parent) and leaves the resource unchanged.  Hence,
whenever a first invocation leaves the resource carrying such a reference, a
second invocation issues no further call. -/
theorem C8_ownership_link_set_once (r : Reconcile) (component : KeycloakRealmComponent)
    (tr : List CtlCall) (parentRef : ParentRef)
    (href : component.Spec.ParentRef = some parentRef)
    (hkind : parentRef.Kind = KeycloakRealmComponentKind) :
    ((∃ ref ∈ component.ObjectMeta.OwnerReferences, ref.Kind = KeycloakRealmComponentKind) →
      r.setComponentOwnerReference component tr = (tr, component, none)) ∧
    ((∃ ref ∈ (r.setComponentOwnerReference component tr).2.1.ObjectMeta.OwnerReferences,
        ref.Kind = KeycloakRealmComponentKind) →
      r.setComponentOwnerReference (r.setComponentOwnerReference component tr).2.1
          (r.setComponentOwnerReference component tr).1 =
        ((r.setComponentOwnerReference component tr).1,
         (r.setComponentOwnerReference component tr).2.1, none)) := by
  have key : ∀ (c : KeycloakRealmComponent) (t : List CtlCall),
      c.Spec.ParentRef = some parentRef →
      (∃ ref ∈ c.ObjectMeta.OwnerReferences, ref.Kind = KeycloakRealmComponentKind) →
      r.setComponentOwnerReference c t = (t, c, none) := by
    intro c t hc hex
    have hany : c.ObjectMeta.OwnerReferences.any
        (fun ref => decide (ref.Kind = KeycloakRealmComponentKind)) = true := by
      rw [List.any_eq_true]
      obtain ⟨ref, hmem, hk⟩ := hex
      exact ⟨ref, hmem, by simp [hk]⟩
    simp [Reconcile.setComponentOwnerReference, hc, hkind, hany]
  have hspec : (r.setComponentOwnerReference component tr).2.1.Spec.ParentRef =
      some parentRef := by
    simp only [Reconcile.setComponentOwnerReference, href, hkind]
    simp only [ne_eq, not_true_eq_false, if_false]
    split
    · exact href
    · split
      · exact href
      · split
        · exact href
        · split
          · exact href
          · exact href
  exact ⟨key component tr href, key _ _ hspec⟩

/-- A concrete instance of C8: the first invocation attaches the link with one
`Get` and one `Update`; the second invocation, on the resulting resource,
issues nothing more. -/
theorem C8_ownership_link_set_once_witness :
    (sampleReconcile (sampleComponent "child" none []) (storeKClient false "")).setComponentOwnerReference
      (sampleComponent "child" (some { Kind := "KeycloakRealmComponent", Name := "parent" }) [])
      [] =
    ([CtlCall.ClientGetComponent { Name := "parent", Namespace := "ns" },
      CtlCall.ClientUpdate
        (sampleComponent "child" (some { Kind := "KeycloakRealmComponent", Name := "parent" })
          [{ APIVersion := "v1.edp.epam.com/v1", Kind := "KeycloakRealmComponent",
             Name := "parent", UID := "uid-parent", BlockOwnerDeletion := some true,
             Controller := some true }])],
     sampleComponent "child" (some { Kind := "KeycloakRealmComponent", Name := "parent" })
        [{ APIVersion := "v1.edp.epam.com/v1", Kind := "KeycloakRealmComponent",
           Name := "parent", UID := "uid-parent", BlockOwnerDeletion := some true,
           Controller := some true }],
     none) ∧
    (sampleReconcile (sampleComponent "child" none []) (storeKClient false "")).setComponentOwnerReference
      (sampleComponent "child" (some { Kind := "KeycloakRealmComponent", Name := "parent" })
        [{ APIVersion := "v1.edp.epam.com/v1", Kind := "KeycloakRealmComponent",
           Name := "parent", UID := "uid-parent", BlockOwnerDeletion := some true,
           Controller := some true }])
      [CtlCall.ClientGetComponent { Name := "parent", Namespace := "ns" },
       CtlCall.ClientUpdate
        (sampleComponent "child" (some { Kind := "KeycloakRealmComponent", Name := "parent" })
          [{ APIVersion := "v1.edp.epam.com/v1", Kind := "KeycloakRealmComponent",
             Name := "parent", UID := "uid-parent", BlockOwnerDeletion := some true,
             Controller := some true }])] =
    ([CtlCall.ClientGetComponent { Name := "parent", Namespace := "ns" },
      CtlCall.ClientUpdate
        (sampleComponent "child" (some { Kind := "KeycloakRealmComponent", Name := "parent" })
          [{ APIVersion := "v1.edp.epam.com/v1", Kind := "KeycloakRealmComponent",
             Name := "parent", UID := "uid-parent", BlockOwnerDeletion := some true,
             Controller := some true }])],
     sampleComponent "child" (some { Kind := "KeycloakRealmComponent", Name := "parent" })
        [{ APIVersion := "v1.edp.epam.com/v1", Kind := "KeycloakRealmComponent",
           Name := "parent", UID := "uid-parent", BlockOwnerDeletion := some true,
           Controller := some true }],
     none) :=
  ⟨by decide,
   (C8_ownership_link_set_once
    (sampleReconcile (sampleComponent "child" none []) (storeKClient false ""))
    (sampleComponent "child" (some { Kind := "KeycloakRealmComponent", Name := "parent" }) [])
    [] { Kind := "KeycloakRealmComponent", Name := "parent" } rfl rfl).2
    ⟨{ APIVersion := "v1.edp.epam.com/v1", Kind := "KeycloakRealmComponent",
       Name := "parent", UID := "uid-parent", BlockOwnerDeletion := some true,
       Controller := some true }, by decide, rfl⟩⟩

/-- C6, refuted as stated: `tryReconcile` fails (the remote refuses the
connection), the status is persisted with the error text, but the persisted
failure counter is the stored one, not the stored one plus one, the backoff
policy is never consulted, and the returned result carries no re-queue delay
although the policy would answer ten seconds. -/
theorem C6_reconciler_failure_handling_counterexample :
    (sampleReconcile (sampleComponent "ldap" none []) (storeKClient true "")).Reconcile
      { Namespace := "ns", Name := "ldap" } [] =
    ([CtlCall.ClientGetComponent { Namespace := "ns", Name := "ldap" },
      CtlCall.GetOrCreateRealmOwnerRef (sampleComponent "ldap" none []),
      CtlCall.CreateKeycloakClientForRealm sampleRealm,
      CtlCall.TryToDelete (sampleComponent "ldap" none []) "master" "ldap" finalizerName,
      CtlCall.GetComponent "master" "ldap",
      CtlCall.ClientStatusUpdate
        { sampleComponent "ldap" none [] with
          Status := { Value := "unable to get component, unexpected error: connection refused",
                      FailureCount := 0 } }],
     { Requeue := false, RequeueAfter := 0 },
     some (GoError.Wrap "unable to reconcile KeycloakRealmComponent: "
      (GoError.Wrap "unable to get component, unexpected error: "
        (GoError.New "connection refused")))) ∧
    ¬ (persistedFailureCounts
        ((sampleReconcile (sampleComponent "ldap" none []) (storeKClient true "")).Reconcile
          { Namespace := "ns", Name := "ldap" } []).1 =
        [(sampleComponent "ldap" none []).Status.FailureCount + 1]) ∧
    ¬ (((sampleReconcile (sampleComponent "ldap" none []) (storeKClient true "")).Reconcile
          { Namespace := "ns", Name := "ldap" } []).2.1.RequeueAfter =
        ((sampleHelper (storeKClient true "")).SetFailureCount [] (sampleComponent "ldap" none [])).2) :=
  ⟨by decide, by decide, by decide⟩

/-- C6, amended.  When the cycle reaches `tryReconcile` and it returns an error,
`Reconcile` sets `Status.Value` to the error text, leaves `Status.FailureCount`
as it is, issues `Status().Update` for that resource as its last call, never
calls `SetFailureCount`, and returns the zero result (no re-queue delay)
together with an error: the wrapped reconcile error, or the wrapped status
error when persisting failed. -/
theorem C6_reconciler_failure_handling_amended (r : Reconcile) (request : NamespacedName)
    (tr tr3 tr6 : List CtlCall) (c0 c1 c2 c3 : KeycloakRealmComponent) (realm : KeycloakRealm)
    (kClient : KClient) (err : GoError)
    (hget : r.client.GetComponent tr request = Except.ok c0)
    (hrealm : r.helper.GetOrCreateRealmOwnerRef (tr ++ [CtlCall.ClientGetComponent request]) c0 =
      (c1, Except.ok realm))
    (hown : r.setComponentOwnerReference c1
      (tr ++ [CtlCall.ClientGetComponent request] ++ [CtlCall.GetOrCreateRealmOwnerRef c0]) =
      (tr3, c2, none))
    (hkc : r.helper.CreateKeycloakClientForRealm tr3 realm = Except.ok kClient)
    (hdel : r.helper.TryToDelete (tr3 ++ [CtlCall.CreateKeycloakClientForRealm realm]) c2
      (makeTerminator realm.Spec.RealmName c2.Spec.Name kClient) finalizerName =
      (c3, Except.ok false))
    (htry : r.tryReconcile c3 realm kClient
      (tr3 ++ [CtlCall.CreateKeycloakClientForRealm realm] ++
        [CtlCall.TryToDelete c2 realm.Spec.RealmName c2.Spec.Name finalizerName]) =
      (tr6, some err)) :
    r.Reconcile request tr =
      (tr6 ++ [CtlCall.ClientStatusUpdate
          { c3 with Status := { Value := err.Error, FailureCount := c3.Status.FailureCount } }],
       { Requeue := false, RequeueAfter := 0 },
       match r.client.StatusUpdate tr6
          { c3 with Status := { Value := err.Error, FailureCount := c3.Status.FailureCount } } with
       | some statusErr =>
         some (GoError.Wrap "unable to update KeycloakRealmComponent status: " statusErr)
       | none => some (GoError.Wrap "unable to reconcile KeycloakRealmComponent: " err)) ∧
    (r.Reconcile request tr).1.filter isSetFailureCount = tr.filter isSetFailureCount := by
  have hmain : r.Reconcile request tr =
      (tr6 ++ [CtlCall.ClientStatusUpdate
          { c3 with Status := { Value := err.Error, FailureCount := c3.Status.FailureCount } }],
       { Requeue := false, RequeueAfter := 0 },
       match r.client.StatusUpdate tr6
          { c3 with Status := { Value := err.Error, FailureCount := c3.Status.FailureCount } } with
       | some statusErr =>
         some (GoError.Wrap "unable to update KeycloakRealmComponent status: " statusErr)
       | none => some (GoError.Wrap "unable to reconcile KeycloakRealmComponent: " err)) := by
    simp only [Reconcile.Reconcile, hget, hrealm, hown, hkc, hdel, htry]
    cases r.client.StatusUpdate tr6
      { c3 with Status := { Value := err.Error, FailureCount := c3.Status.FailureCount } } <;> rfl
  refine ⟨hmain, ?_⟩
  rw [hmain]
  obtain ⟨e1, h1, h1'⟩ := setComponentOwnerReference_trace r c1
    (tr ++ [CtlCall.ClientGetComponent request] ++ [CtlCall.GetOrCreateRealmOwnerRef c0])
  rw [hown] at h1
  simp only at h1
  obtain ⟨e2, h2, h2'⟩ := tryReconcile_trace r c3 realm kClient
    (tr3 ++ [CtlCall.CreateKeycloakClientForRealm realm] ++
      [CtlCall.TryToDelete c2 realm.Spec.RealmName c2.Spec.Name finalizerName])
  rw [htry] at h2
  simp only at h2
  rw [h2, h1]
  simp only [List.filter_append, filter_backoff_of_ext]
  have he1 : e1.filter isSetFailureCount = [] := by
    rw [List.filter_eq_nil_iff]
    intro c hc
    simp [h1' c hc]
  have he2 : e2.filter isSetFailureCount = [] := by
    rw [List.filter_eq_nil_iff]
    intro c hc
    simp [h2' c hc]
  rw [he1, he2]
  simp [isSetFailureCount]

/-- A concrete instance of the amended C6: the remote refuses the connection. -/
theorem C6_reconciler_failure_handling_amended_witness :
    (sampleReconcile (sampleComponent "ldap" none []) (storeKClient true "")).Reconcile
      { Namespace := "ns", Name := "ldap" } [] =
    ([CtlCall.ClientGetComponent { Namespace := "ns", Name := "ldap" },
      CtlCall.GetOrCreateRealmOwnerRef (sampleComponent "ldap" none []),
      CtlCall.CreateKeycloakClientForRealm sampleRealm,
      CtlCall.TryToDelete (sampleComponent "ldap" none []) "master" "ldap" finalizerName,
      CtlCall.GetComponent "master" "ldap",
      CtlCall.ClientStatusUpdate
        { sampleComponent "ldap" none [] with
          Status := { Value := "unable to get component, unexpected error: connection refused",
                      FailureCount := 0 } }],
     { Requeue := false, RequeueAfter := 0 },
     some (GoError.Wrap "unable to reconcile KeycloakRealmComponent: "
      (GoError.Wrap "unable to get component, unexpected error: "
        (GoError.New "connection refused")))) :=
  (C6_reconciler_failure_handling_amended
    (sampleReconcile (sampleComponent "ldap" none []) (storeKClient true ""))
    { Namespace := "ns", Name := "ldap" } []
    [CtlCall.ClientGetComponent { Namespace := "ns", Name := "ldap" },
     CtlCall.GetOrCreateRealmOwnerRef (sampleComponent "ldap" none [])]
    [CtlCall.ClientGetComponent { Namespace := "ns", Name := "ldap" },
     CtlCall.GetOrCreateRealmOwnerRef (sampleComponent "ldap" none []),
     CtlCall.CreateKeycloakClientForRealm sampleRealm,
     CtlCall.TryToDelete (sampleComponent "ldap" none []) "master" "ldap" finalizerName,
     CtlCall.GetComponent "master" "ldap"]
    (sampleComponent "ldap" none []) (sampleComponent "ldap" none [])
    (sampleComponent "ldap" none []) (sampleComponent "ldap" none []) sampleRealm
    (storeKClient true "")
    (GoError.Wrap "unable to get component, unexpected error: " (GoError.New "connection refused"))
    rfl rfl rfl rfl rfl rfl).1
